import Mathlib

/-!
Verification development for the FinMentor decision engine
(`Decision_engine/engine/rule_registry.py`, `risks.py`, `recommendations.py`,
`models.py`, `config.py`).

Modelling conventions:
* Python/JSON scalars, dictionaries and lists are embedded as `Value`;
  numbers are embedded as `ℚ` (the source works with Python floats; no claim
  here depends on binary floating-point rounding).
* A Python function that can raise is embedded with result type
  `Except String α`; a `try/except` block is embedded as a `match` on that
  result.  A function embedded with a plain result type cannot raise: every
  raising operation it performs is guarded by such a `match`.
* `statistics.stdev` (an irrational square root) and `re.search` are taken
  as parameters (`stdev`, `ReSearch`); every theorem below quantifies over
  them, so no claim verdict depends on their exact behaviour.  The `eval`
  builtin used for arithmetic expressions is likewise a parameter of the
  resolver (`resolveExpressionWith`); a concrete restricted evaluator
  `pyEvalArith` (tokens `+ - * / ( )`, numerals and context names, anything
  else raising a syntax error, as Python `eval` with empty builtins does on
  the catalog fragment) instantiates it.
* Python dictionaries are embedded as association lists without duplicate
  keys; `dict` equality is compared entrywise in order (catalog comparisons
  never compare dictionaries).  `str()` of a float renders whole numbers
  without a trailing `.0`; this only affects log-style message text.
-/

namespace FinMentor

/-- Scalar, dictionary or list value as it appears in the JSON catalog, the
evaluation context and rule parameters.  Numbers carry `ℚ`. -/
inductive Value where
  | num (q : ℚ)
  | str (s : String)
  | bool (b : Bool)
  | dict (entries : List (String × Value))
  | list (elems : List Value)

/-- Evaluation context / extracted-values map: a Python dict keyed by
strings. -/
abbrev Ctx := List (String × Value)

/-- Dictionary lookup (`d.get(k)` / `k in d`). -/
def ctxGet (ctx : Ctx) (k : String) : Option Value :=
  List.lookup k ctx

/-- Python truthiness of a value (`bool(x)`). -/
def pyTruthy : Value → Bool
  | .num q => decide (q ≠ 0)
  | .str s => !s.isEmpty
  | .bool b => b
  | .dict entries => !entries.isEmpty
  | .list elems => !elems.isEmpty

/-- Numeric view of a value: Python treats `bool` as an `int` in arithmetic
and ordered comparisons. -/
def numOfValue : Value → Option ℚ
  | .num q => some q
  | .bool b => some (if b then 1 else 0)
  | _ => none

/-- Python `s.strip()`: whitespace removed from both ends (modelled on the
character list). -/
def pyStrip (s : String) : String :=
  String.mk (((s.toList.dropWhile Char.isWhitespace).reverse.dropWhile
    Char.isWhitespace).reverse)

/-- Python `s.startswith(p)`. -/
def pyStartsWith (s p : String) : Bool :=
  p.toList.isPrefixOf s.toList

/-- Python slice `s[n:]`. -/
def pyDrop (s : String) (n : ℕ) : String :=
  String.mk (s.toList.drop n)

/-- Python slice `s[:n]`. -/
def pyTake (s : String) (n : ℕ) : String :=
  String.mk (s.toList.take n)

/-- Is the string empty? -/
def pyIsEmptyStr (s : String) : Bool :=
  s.toList.isEmpty

/-- Does the string contain the character? -/
def pyContainsChar (s : String) (c : Char) : Bool :=
  s.toList.contains c

/-- Splits a character list at every occurrence of `c` (Python
`s.split(c)`). -/
def splitOnChar (c : Char) : List Char → List (List Char)
  | [] => [[]]
  | x :: xs =>
      let r := splitOnChar c xs
      if x = c then [] :: r else (x :: r.headD []) :: r.tail

/-- Python `s.split(c)` producing strings. -/
def pySplitOn (s : String) (c : Char) : List String :=
  (splitOnChar c s.toList).map String.mk

/-- Python `s.upper()`. -/
def pyUpper (s : String) : String :=
  String.mk (s.toList.map Char.toUpper)

/-- Digit run to a natural number. -/
def digitsToNat (l : List Char) : ℕ :=
  l.foldl (fun acc c => acc * 10 + (c.toNat - ('0').toNat)) 0

/-- Natural number rendered with at least `width` digits (leading zeros). -/
def natDigitsPad (n : ℕ) (width : ℕ) : String :=
  let s := toString n
  String.mk (List.replicate (width - s.length) ('0')) ++ s

/-- Drop trailing zero characters (used when rendering a decimal fraction). -/
def stripTrailingZeros (s : String) : String :=
  String.mk ((s.toList.reverse.dropWhile (fun c => c = '0')).reverse)

/-- Python `str()` of a number.  Whole numbers render as integers; other
rationals with a power-of-ten denominator render as decimals; remaining
rationals (never produced by the modelled pipeline) fall back to `num/den`. -/
def pyStrNum (q : ℚ) : String :=
  if q.den = 1 then toString q.num
  else
    let scaled : ℚ := q * (10 : ℚ) ^ (9 : ℕ)
    if scaled.den = 1 then
      let sign := if q < 0 then ("-") else ("")
      let a : ℕ := scaled.num.natAbs
      sign ++ toString (a / 10 ^ (9 : ℕ)) ++ (".") ++
        stripTrailingZeros (natDigitsPad (a % 10 ^ (9 : ℕ)) 9)
    else toString q.num ++ ("/") ++ toString q.den

mutual

/-- Python `str()` of a value. -/
def pyStr : Value → String
  | .num q => pyStrNum q
  | .str s => s
  | .bool b => if b then ("True") else ("False")
  | .dict entries => ("\x7b") ++ pyStrEntries entries ++ ("\x7d")
  | .list elems => ("[") ++ pyStrElems elems ++ ("]")

/-- Renders dictionary entries for `pyStr`. -/
def pyStrEntries : List (String × Value) → String
  | [] => ""
  | [kv] => kv.1 ++ (": ") ++ pyStr kv.2
  | kv :: rest => kv.1 ++ (": ") ++ pyStr kv.2 ++ (", ") ++ pyStrEntries rest

/-- Renders list elements for `pyStr`. -/
def pyStrElems : List Value → String
  | [] => ""
  | [v] => pyStr v
  | v :: rest => pyStr v ++ (", ") ++ pyStrElems rest

end

/-- Python `float(s)` on a string: optional sign, decimal digits with an
optional fractional part.  (Exponent notation and `inf`/`nan`, which the
catalog never uses, are modelled as failures.) -/
def parseFloatQ (s : String) : Option ℚ :=
  let t := pyStrip s
  let signAndRest : ℤ × List Char :=
    match t.toList with
    | '-' :: r => (-1, r)
    | '+' :: r => (1, r)
    | r => (1, r)
  let intPart := signAndRest.2.takeWhile Char.isDigit
  let rest := signAndRest.2.dropWhile Char.isDigit
  match rest with
  | [] =>
      if intPart.isEmpty then none
      else some ((signAndRest.1 * (digitsToNat intPart : ℤ) : ℤ) : ℚ)
  | '.' :: frac =>
      if frac.all Char.isDigit && !(intPart.isEmpty && frac.isEmpty) then
        some ((signAndRest.1 : ℚ) *
          ((digitsToNat intPart : ℚ) + (digitsToNat frac : ℚ) / (10 : ℚ) ^ frac.length))
      else none
  | _ => none

/-- Python `int(s)` on a string: optional sign and decimal digits only. -/
def parseIntZ (s : String) : Option ℤ :=
  let t := pyStrip s
  let signAndRest : ℤ × List Char :=
    match t.toList with
    | '-' :: r => (-1, r)
    | '+' :: r => (1, r)
    | r => (1, r)
  if signAndRest.2.isEmpty || !(signAndRest.2.all Char.isDigit) then none
  else some (signAndRest.1 * (digitsToNat signAndRest.2 : ℤ))

/-- Python `float(x)` on a value; `none` models the `ValueError`/`TypeError`
raised on non-coercible input. -/
def pyFloatOfValue : Value → Option ℚ
  | .num q => some q
  | .bool b => some (if b then 1 else 0)
  | .str s => parseFloatQ s
  | _ => none

/-- Python `int(q)` truncates toward zero. -/
def pyTrunc (q : ℚ) : ℤ :=
  q.num.tdiv (q.den : ℤ)

/-- Python `round(q)` (banker's rounding: ties to the even integer). -/
def roundHalfEvenInt (q : ℚ) : ℤ :=
  let f : ℤ := ⌊q⌋
  let r : ℚ := q - (f : ℚ)
  if r < 1 / 2 then f
  else if 1 / 2 < r then f + 1
  else if f % 2 = 0 then f else f + 1

/-- Python `round(q, digits)`. -/
def roundTo (digits : ℕ) (q : ℚ) : ℚ :=
  (roundHalfEvenInt (q * (10 : ℚ) ^ digits) : ℚ) / (10 : ℚ) ^ digits

/-- Python `a.update(b)` / `\x7b**a, **b\x7d`: keys of `a` keep their position
(with values overridden by `b`), new keys of `b` are appended in order. -/
def pyDictUpdate (a b : Ctx) : Ctx :=
  a.map (fun kv => (kv.1, (ctxGet b kv.1).getD kv.2)) ++
    b.filter (fun kv => (ctxGet a kv.1).isNone)

/-- Python `x or y` on a float: `x` is kept unless it is falsy (zero). -/
def pyOrQ (x y : ℚ) : ℚ :=
  if x = 0 then y else x

/-- Python `x or y` where `x` is an optional float (`None` and `0.0` are
falsy). -/
def pyOrOptQ (x : Option ℚ) (y : ℚ) : ℚ :=
  match x with
  | some q => if q = 0 then y else q
  | none => y

/-- Python `x or d` where `x` is an optional string (`None` and `""` are
falsy). -/
def pyOrStr (x : Option String) (d : String) : String :=
  match x with
  | some s => if s = "" then d else s
  | none => d

/-! ### Expression resolver (`RuleEvaluator._resolve_expression`) -/

/-- Word character for the `\w+` parts of the bracket pattern and for
arithmetic identifiers. -/
def isWordChar (c : Char) : Bool :=
  c.isAlphanum || c = '_'

/-- The `replace_bracket` callback inside `_resolve_expression`: resolves one
`name[key]` occurrence to the string of the looked-up value, falling back to
`"0"` when the base is absent, not a dictionary, or lacks the key. -/
def replaceBracketValue (ctx : Ctx) (base key : String) : String :=
  match ctxGet ctx base with
  | none => ("0")
  | some baseVal =>
      let key2 := match ctxGet ctx key with
        | some kv => pyStr kv
        | none => key
      match baseVal with
      | .dict d => pyStr ((List.lookup key2 d).getD (.num 0))
      | _ => ("0")

/-- Character scan implementing `re.sub` of the pattern `(\w+)\[([^\]]+)\]`
with `replace_bracket`; fuel bounds the recursion by the input length. -/
def bracketScan (ctx : Ctx) : ℕ → List Char → List Char
  | 0, cs => cs
  | _ + 1, [] => []
  | fuel + 1, c :: cs =>
      if isWordChar c then
        let w := (c :: cs).takeWhile isWordChar
        let rest := (c :: cs).dropWhile isWordChar
        match rest with
        | '[' :: r2 =>
            let key := r2.takeWhile (fun x => x ≠ ']')
            let r3 := r2.dropWhile (fun x => x ≠ ']')
            match r3, key with
            | ']' :: r4, _ :: _ =>
                (replaceBracketValue ctx (String.mk w) (String.mk key)).toList ++
                  bracketScan ctx fuel r4
            | _, _ => w ++ bracketScan ctx fuel rest
        | _ => w ++ bracketScan ctx fuel rest
      else c :: bracketScan ctx fuel cs

/-- The bracket pre-processing step of the arithmetic branch of
`_resolve_expression`. -/
def preprocessBrackets (ctx : Ctx) (s : String) : String :=
  String.mk (bracketScan ctx (s.length + 1) s.toList)

/-- Arithmetic token. -/
inductive ATok where
  | num (q : ℚ)
  | ident (s : String)
  | plus
  | minus
  | star
  | slash
  | lpar
  | rpar

/-- Tokenizer for the restricted arithmetic fragment accepted by the
sandboxed `eval` call; any other character is a syntax error. -/
def tokenizeArith : ℕ → List Char → Except String (List ATok)
  | 0, _ => .error ("tokenizer fuel exhausted")
  | _ + 1, [] => .ok []
  | fuel + 1, c :: cs =>
      if c = ' ' || c = '\t' then tokenizeArith fuel cs
      else if c = '+' then (tokenizeArith fuel cs).map (fun ts => .plus :: ts)
      else if c = '-' then (tokenizeArith fuel cs).map (fun ts => .minus :: ts)
      else if c = '*' then (tokenizeArith fuel cs).map (fun ts => .star :: ts)
      else if c = '/' then (tokenizeArith fuel cs).map (fun ts => .slash :: ts)
      else if c = '(' then (tokenizeArith fuel cs).map (fun ts => .lpar :: ts)
      else if c = ')' then (tokenizeArith fuel cs).map (fun ts => .rpar :: ts)
      else if c.isDigit then
        let ds := (c :: cs).takeWhile Char.isDigit
        let r := (c :: cs).dropWhile Char.isDigit
        match r with
        | '.' :: r2 =>
            let fs := r2.takeWhile Char.isDigit
            let r3 := r2.dropWhile Char.isDigit
            (tokenizeArith fuel r3).map
              (fun ts => .num ((digitsToNat ds : ℚ) + (digitsToNat fs : ℚ) / (10 : ℚ) ^ fs.length) :: ts)
        | _ => (tokenizeArith fuel r).map (fun ts => .num (digitsToNat ds : ℚ) :: ts)
      else if isWordChar c then
        let w := (c :: cs).takeWhile isWordChar
        let r := (c :: cs).dropWhile isWordChar
        (tokenizeArith fuel r).map (fun ts => .ident (String.mk w) :: ts)
      else .error ("SyntaxError: unexpected character")

/-- Name lookup during arithmetic evaluation; only numeric (or boolean)
context values are usable as operands, as in the sandboxed `eval`. -/
def arithLookup (ctx : Ctx) (name : String) : Except String ℚ :=
  match ctxGet ctx name with
  | none => .error (("NameError: ") ++ name)
  | some v =>
      match numOfValue v with
      | some q => .ok q
      | none => .error ("TypeError: unsupported operand")

mutual

/-- Recursive-descent atom: numeral, identifier, parenthesised sum or unary
sign. -/
def parseAtom : ℕ → Ctx → List ATok → Except String (ℚ × List ATok)
  | 0, _, _ => .error ("recursion limit")
  | fuel + 1, ctx, toks =>
      match toks with
      | .num q :: r => .ok (q, r)
      | .ident s :: r => (arithLookup ctx s).map (fun q => (q, r))
      | .lpar :: r =>
          match parseSum fuel ctx r with
          | .error e => .error e
          | .ok (v, r2) =>
              match r2 with
              | .rpar :: r3 => .ok (v, r3)
              | _ => .error ("SyntaxError: expected closing parenthesis")
      | .minus :: r => (parseAtom fuel ctx r).map (fun p => (-p.1, p.2))
      | .plus :: r => parseAtom fuel ctx r
      | _ => .error ("SyntaxError: expected operand")

/-- Product level: `*` and `/`; division by zero raises. -/
def parseProd : ℕ → Ctx → List ATok → Except String (ℚ × List ATok)
  | 0, _, _ => .error ("recursion limit")
  | fuel + 1, ctx, toks =>
      match parseAtom fuel ctx toks with
      | .error e => .error e
      | .ok (v, r) => parseProdRest fuel ctx v r

/-- Remaining `*`/`/` factors after an initial factor. -/
def parseProdRest : ℕ → Ctx → ℚ → List ATok → Except String (ℚ × List ATok)
  | 0, _, _, _ => .error ("recursion limit")
  | fuel + 1, ctx, acc, toks =>
      match toks with
      | .star :: r =>
          match parseAtom fuel ctx r with
          | .error e => .error e
          | .ok (v, r2) => parseProdRest fuel ctx (acc * v) r2
      | .slash :: r =>
          match parseAtom fuel ctx r with
          | .error e => .error e
          | .ok (v, r2) =>
              if v = 0 then .error ("ZeroDivisionError")
              else parseProdRest fuel ctx (acc / v) r2
      | _ => .ok (acc, toks)

/-- Sum level: `+` and `-`. -/
def parseSum : ℕ → Ctx → List ATok → Except String (ℚ × List ATok)
  | 0, _, _ => .error ("recursion limit")
  | fuel + 1, ctx, toks =>
      match parseProd fuel ctx toks with
      | .error e => .error e
      | .ok (v, r) => parseSumRest fuel ctx v r

/-- Remaining `+`/`-` terms after an initial term. -/
def parseSumRest : ℕ → Ctx → ℚ → List ATok → Except String (ℚ × List ATok)
  | 0, _, _, _ => .error ("recursion limit")
  | fuel + 1, ctx, acc, toks =>
      match toks with
      | .plus :: r =>
          match parseProd fuel ctx r with
          | .error e => .error e
          | .ok (v, r2) => parseSumRest fuel ctx (acc + v) r2
      | .minus :: r =>
          match parseProd fuel ctx r with
          | .error e => .error e
          | .ok (v, r2) => parseSumRest fuel ctx (acc - v) r2
      | _ => .ok (acc, toks)

end

/-- Concrete model of the sandboxed `eval(processed_expr, ..., context)` call
on the restricted arithmetic fragment. -/
def pyEvalArith (s : String) (ctx : Ctx) : Except String Value :=
  match tokenizeArith (s.length + 1) s.toList with
  | .error e => .error e
  | .ok toks =>
      match parseSum (3 * toks.length + 3) ctx toks with
      | .error e => .error e
      | .ok (v, rest) =>
          match rest with
          | [] => .ok (.num v)
          | _ => .error ("SyntaxError: trailing tokens")

/-- Does the expression contain an arithmetic operator character?  (The
source's `has_arithmetic` check.) -/
def hasArithChar (s : String) : Bool :=
  s.toList.any (fun c => c = '+' || c = '-' || c = '*' || c = '/' || c = '(' || c = ')')

/-- Dotted-path descent (`a.b.c`): sequential dictionary lookups; a missing
key or a non-dictionary intermediate yields `none`. -/
def dottedDescend : Value → List String → Option Value
  | v, [] => some v
  | .dict d, p :: ps =>
      match List.lookup p d with
      | none => none
      | some v => dottedDescend v ps
  | _, _ :: _ => none

/-- Dictionary lookup with a value as key: only string keys can match the
string-keyed dictionaries of this engine. -/
def dictGetByValue (d : List (String × Value)) : Value → Option Value
  | .str s => List.lookup s d
  | _ => none

/-- Single-level bracket access (`map[key]`, key possibly itself a context
variable), mirroring the slice-based extraction in the source: `base` is the
text before the first `[`, `key` the text between the first `[` and the first
`]` (empty when `]` precedes `[`, as with Python slicing). -/
def simpleBracketAccess (ctx : Ctx) (e : String) : Option Value :=
  let cs := e.toList
  match cs.findIdx? (fun x => x = '['), cs.findIdx? (fun x => x = ']') with
  | some i, some j =>
      let base := String.mk (cs.take i)
      let key := String.mk ((cs.drop (i + 1)).take (j - (i + 1)))
      match ctxGet ctx base with
      | none => none
      | some baseVal =>
          let key2 : Value := match ctxGet ctx key with
            | some kv => kv
            | none => .str key
          match baseVal with
          | .dict d => dictGetByValue d key2
          | _ => none
  | _, _ => none

/-- `RuleEvaluator._resolve_expression`, parametrised by the `eval` callback
used in its arithmetic branch.  The result is `Except`-valued so that an
uncaught exception would be representable: every failure path the source
guards with `try/except` returns `.ok none` (the `Unresolved` signal). -/
def resolveExpressionWith (evalFn : String → Ctx → Except String Value)
    (expr : Value) (ctx : Ctx) (extracted : Ctx) : Except String (Option Value) :=
  match expr with
  | .num q => .ok (some (.num q))
  | .bool b => .ok (some (.bool b))
  | _ =>
    let e := pyStrip (pyStr expr)
    if pyIsEmptyStr e then .ok none
    else
      match ctxGet extracted e with
      | some v =>
          match pyFloatOfValue v with
          | some q => .ok (some (.num q))
          | none => .ok (some v)
      | none =>
        match ctxGet ctx e with
        | some v => .ok (some v)
        | none =>
          if pyContainsChar e '.' && !(pyContainsChar e '[') then
            .ok (dottedDescend (.dict ctx) (pySplitOn e '.'))
          else if pyContainsChar e '[' && pyContainsChar e ']' && !(hasArithChar e) then
            .ok (simpleBracketAccess ctx e)
          else
            match evalFn (preprocessBrackets ctx e) ctx with
            | .ok v => .ok (some v)
            | .error _ => .ok none

/-- `RuleEvaluator._resolve_expression` with the concrete arithmetic
evaluator; returns the resolved value or `none` (`Unresolved`). -/
def resolve_expression (expr : Value) (ctx : Ctx) (extracted : Ctx) : Option Value :=
  match resolveExpressionWith pyEvalArith expr ctx extracted with
  | .ok r => r
  | .error _ => none

/-! ### Condition evaluator (`RuleEvaluator._evaluate_condition`, `_compare`) -/

/-- Ordered comparison on values as Python performs it: numeric pairs (with
booleans as integers) or string pairs compare; any other pairing is a
`TypeError` (`none`). -/
def pyOrdCompare (l r : Value) (f : ℚ → ℚ → Bool) (g : String → String → Bool) :
    Option Bool :=
  match numOfValue l, numOfValue r with
  | some a, some b => some (f a b)
  | _, _ =>
      match l, r with
      | .str a, .str b => some (g a b)
      | _, _ => none

mutual

/-- Python `==` on values: numbers and booleans compare numerically, other
cross-type pairs are unequal without raising. -/
def pyEqValue : Value → Value → Bool
  | .num a, .num b => a == b
  | .num a, .bool b => a == (if b then 1 else 0)
  | .bool a, .num b => (if a then (1 : ℚ) else 0) == b
  | .bool a, .bool b => a == b
  | .str a, .str b => a == b
  | .dict a, .dict b => pyEqEntries a b
  | .list a, .list b => pyEqElems a b
  | _, _ => false

/-- Entrywise dictionary equality for `pyEqValue`. -/
def pyEqEntries : List (String × Value) → List (String × Value) → Bool
  | [], [] => true
  | kv :: r, kv2 :: r2 => kv.1 == kv2.1 && pyEqValue kv.2 kv2.2 && pyEqEntries r r2
  | _, _ => false

/-- Elementwise list equality for `pyEqValue`. -/
def pyEqElems : List Value → List Value → Bool
  | [], [] => true
  | v :: r, v2 :: r2 => pyEqValue v v2 && pyEqElems r r2
  | _, _ => false

end

/-- `RuleEvaluator._compare`: all six operators, with `TypeError` on
unorderable operands caught and converted to `False`, and unknown operators
yielding `False`. -/
def compare_values (left : Value) (op : String) (right : Value) : Bool :=
  if op = ">" then
    (pyOrdCompare left right (fun a b => decide (a > b)) (fun a b => decide (a > b))).getD false
  else if op = ">=" then
    (pyOrdCompare left right (fun a b => decide (a ≥ b)) (fun a b => decide (a ≥ b))).getD false
  else if op = "<" then
    (pyOrdCompare left right (fun a b => decide (a < b)) (fun a b => decide (a < b))).getD false
  else if op = "<=" then
    (pyOrdCompare left right (fun a b => decide (a ≤ b)) (fun a b => decide (a ≤ b))).getD false
  else if op = "==" then pyEqValue left right
  else if op = "!=" then !(pyEqValue left right)
  else false

/-- Threshold clause of a `regex_match` condition. -/
structure RegexThreshold where
  field : String
  operator : String
  value : ℚ

/-- Condition tree as read from the rule registry JSON (the `type` tag
selects the variant; an unrecognised tag is `unknown` and evaluates to not
triggered, as in the source's fall-through). -/
inductive Condition where
  | comparison (left : Value) (operator : String) (right : Value)
  | logical_and (conditions : List Condition)
  | logical_or (conditions : List Condition)
  | is_null (field : Value)
  | field_exists (field : Value)
  | regex_match (field : Value) (pattern : String) (extract : List String)
      (threshold : Option RegexThreshold)
  | unknown (tag : String)

/-- `re.search(pattern, text, IGNORECASE)` as a parameter: `.ok none` is no
match, `.ok (some groups)` is a match with its (possibly unmatched) capture
groups, `.error` is a raised `re.error` (for example an invalid pattern). -/
abbrev ReSearch := String → String → Except String (Option (List (Option String)))

/-- Builds the extracted-values map from capture groups: `extract` names are
bound to groups 1, 2, … (stripped); an out-of-range index (`IndexError`) or
an unmatched group (`AttributeError` on `.strip()`) is skipped. -/
def buildExtract (groups : List (Option String)) : List String → ℕ → Ctx
  | [], _ => []
  | name :: rest, i =>
      match groups.get? (i - 1) with
      | some (some s) => (name, .str (pyStrip s)) :: buildExtract groups rest (i + 1)
      | _ => buildExtract groups rest (i + 1)

mutual

/-- `RuleEvaluator._evaluate_condition`: comparison, logical and/or, null and
existence checks and pattern matching; only a raised regex error escapes. -/
def evaluate_condition (research : ReSearch) : Condition → Ctx → Except String (Bool × Ctx)
  | .comparison l op r, ctx =>
      match resolve_expression l ctx [], resolve_expression r ctx [] with
      | some lv, some rv => .ok (compare_values lv op rv, [])
      | _, _ => .ok (false, [])
  | .logical_and conds, ctx => evalAndList research conds ctx []
  | .logical_or conds, ctx => evalOrList research conds ctx
  | .is_null f, ctx => .ok ((resolve_expression f ctx []).isNone, [])
  | .field_exists f, ctx => .ok ((resolve_expression f ctx []).isSome, [])
  | .unknown _, _ => .ok (false, [])
  | .regex_match f pat extract thr, ctx =>
      match resolve_expression f ctx [] with
      | none => .ok (false, [])
      | some text =>
        if !(pyTruthy text) then .ok (false, [])
        else
          match research pat (pyStr text) with
          | .error e => .error e
          | .ok none => .ok (false, [])
          | .ok (some groups) =>
              let extracted := buildExtract groups extract 1
              match thr with
              | none => .ok (true, extracted)
              | some t =>
                  match List.lookup t.field extracted with
                  | none => .ok (false, extracted)
                  | some fv =>
                      match pyFloatOfValue fv with
                      | none => .ok (false, extracted)
                      | some q =>
                          if compare_values (.num q) t.operator (.num t.value) then
                            .ok (true, extracted)
                          else .ok (false, extracted)

/-- `logical_and` loop: children in order, extracted maps merged as they are
produced, short-circuiting to `(False, \x7b\x7d)` on the first non-trigger. -/
def evalAndList (research : ReSearch) : List Condition → Ctx → Ctx → Except String (Bool × Ctx)
  | [], _, acc => .ok (true, acc)
  | c :: rest, ctx, acc =>
      match evaluate_condition research c ctx with
      | .error e => .error e
      | .ok (res, sub) =>
          let acc2 := pyDictUpdate acc sub
          if res then evalAndList research rest ctx acc2 else .ok (false, [])

/-- `logical_or` loop: children in order, short-circuiting to the first
triggering child's extracted map. -/
def evalOrList (research : ReSearch) : List Condition → Ctx → Except String (Bool × Ctx)
  | [], _ => .ok (false, [])
  | c :: rest, ctx =>
      match evaluate_condition research c ctx with
      | .error e => .error e
      | .ok (res, sub) =>
          if res then .ok (true, sub) else evalOrList research rest ctx

end

/-! ### Severity calculator (`RuleEvaluator._calculate_severity`) -/

/-- One band of a `banded` severity specification. -/
structure Band where
  threshold : Option ℚ
  severity : String

/-- One rule of a `threshold` severity specification. -/
structure ThresholdRule where
  condition : String
  severity : String

/-- Severity specification as read from the registry JSON.  `fixed` carries
`none` when the `value` key is absent (the source then falls back to
`"medium"`). -/
inductive SeverityDef where
  | fixed (value : Option String)
  | banded (metric : Value) (bands : List Band)
  | threshold (metric : Value) (rules : List ThresholdRule)
  | unknown (tag : String)

/-- `metric_value >= threshold` inside the banded walk: numeric (or boolean)
metrics compare, any other metric raises `TypeError`. -/
def valueGENum (v : Value) (t : ℚ) : Except String Bool :=
  match numOfValue v with
  | some a => .ok (decide (a ≥ t))
  | none => .error ("TypeError: unorderable types")

/-- The band loop: first band whose threshold is null or at most the metric
wins; `.ok none` when no band matched. -/
def banded_walk (mv : Value) : List Band → Except String (Option String)
  | [] => .ok none
  | b :: rest =>
      match b.threshold with
      | none => .ok (some b.severity)
      | some t =>
          match valueGENum mv t with
          | .error e => .error e
          | .ok ge => if ge then .ok (some b.severity) else banded_walk mv rest

/-- Body of the `banded` branch of `_calculate_severity` (the code inside its
`try`): an unresolved metric is `"low"`, otherwise the band walk runs with
the last band (or `"low"` for an empty list) as fallback. -/
def bandedCore (metric : Value) (bands : List Band) (ctx extracted : Ctx) :
    Except String String :=
  match resolve_expression metric ctx extracted with
  | none => .ok ("low")
  | some mv =>
      match banded_walk mv bands with
      | .error e => .error e
      | .ok (some s) => .ok s
      | .ok none =>
          .ok (match bands.getLast? with
               | some b => b.severity
               | none => "low")

/-- Numeric comparison against a parsed threshold inside
`_eval_threshold_condition`; a non-numeric metric raises `TypeError`, which
that helper does not catch. -/
def thrCmp (v : Value) (ts : String) (f : ℚ → ℚ → Bool) : Except String Bool :=
  match parseFloatQ ts with
  | none => .ok false
  | some t =>
      match numOfValue v with
      | some a => .ok (f a t)
      | none => .error ("TypeError: unorderable types")

/-- Equality/inequality form of a threshold condition string; cross-type
`==`/`!=` never raises. -/
def thrEq (v : Value) (ts : String) (negate : Bool) : Except String Bool :=
  match parseFloatQ ts with
  | none => .ok false
  | some t =>
      let e := pyEqValue v (.num t)
      .ok (if negate then !e else e)

/-- `RuleEvaluator._eval_threshold_condition`: parses strings such as
`"> 1.5"`; a `ValueError` while parsing the number is caught (returning
`False`), as is an unknown format. -/
def eval_threshold_condition (v : Value) (condition : String) : Except String Bool :=
  let c := pyStrip condition
  if pyStartsWith c (">=") then thrCmp v (pyStrip (pyDrop c 2)) (fun a t => decide (a ≥ t))
  else if pyStartsWith c (">") then thrCmp v (pyStrip (pyDrop c 1)) (fun a t => decide (a > t))
  else if pyStartsWith c ("<=") then thrCmp v (pyStrip (pyDrop c 2)) (fun a t => decide (a ≤ t))
  else if pyStartsWith c ("<") then thrCmp v (pyStrip (pyDrop c 1)) (fun a t => decide (a < t))
  else if pyStartsWith c ("==") then thrEq v (pyStrip (pyDrop c 2)) false
  else if pyStartsWith c ("!=") then thrEq v (pyStrip (pyDrop c 2)) true
  else .ok false

/-- The rule loop of the `threshold` severity branch: first matching
condition string wins; `.ok none` when none matched. -/
def threshold_walk (mv : Value) : List ThresholdRule → Except String (Option String)
  | [] => .ok none
  | r :: rest =>
      match eval_threshold_condition mv r.condition with
      | .error e => .error e
      | .ok hit => if hit then .ok (some r.severity) else threshold_walk mv rest

/-- Body of the `threshold` branch of `_calculate_severity` (the code inside
its `try`). -/
def thresholdCore (metric : Value) (rules : List ThresholdRule) (ctx extracted : Ctx) :
    Except String String :=
  match resolve_expression metric ctx extracted with
  | none => .ok ("low")
  | some mv =>
      match threshold_walk mv rules with
      | .error e => .error e
      | .ok (some s) => .ok s
      | .ok none => .ok ("low")

/-- `RuleEvaluator._calculate_severity`: `fixed` returns its value (default
`"medium"` when absent); `banded` and `threshold` run their cores with every
exception caught and degraded to `"low"`; an unknown type yields `"medium"`. -/
def calculate_severity (severity_def : SeverityDef) (ctx extracted : Ctx) : String :=
  match severity_def with
  | .fixed value => value.getD ("medium")
  | .banded metric bands =>
      match bandedCore metric bands ctx extracted with
      | .ok s => s
      | .error _ => "low"
  | .threshold metric rules =>
      match thresholdCore metric rules ctx extracted with
      | .ok s => s
      | .error _ => "low"
  | .unknown _ => "medium"

/-! ### Data model (`models.py`) and configuration (`config.py`) -/

/-- `BehaviorMetrics` (pydantic model). -/
structure BehaviorMetrics where
  avg_daily_expense : Option ℚ := none
  high_spend_days : Option ℤ := none
  cashflow_stability : Option ℚ := none
  discretionary_ratio : Option ℚ := none

/-- `Forecast` (pydantic model). -/
structure Forecast where
  predicted_income_next_month : Option ℚ := none
  predicted_expense_next_month : Option ℚ := none
  savings : Option ℚ := none
  confidence : Option ℚ := none

/-- `Insights` (pydantic model). -/
structure Insights where
  top_spend_category : Option String := none
  category_drift : Option String := none

/-- `NormalizedInput` (pydantic model): the normalized financial snapshot. -/
structure NormalizedInput where
  user_id : String
  month : String
  avg_monthly_income : ℚ
  avg_monthly_expense : ℚ
  current_month_income : ℚ
  current_month_expense : ℚ
  savings_rate : Option ℚ := none
  income_volatility : Option ℚ := none
  risk_level : Option String := none
  category_spend : List (String × ℚ) := []
  behavior_metrics : Option BehaviorMetrics := none
  forecast : Option Forecast := none
  persona_type : Option String := none
  confidence_score : Option ℚ := none
  last_updated : Option String := none
  insights : Option Insights := none
  net_cashflow : ℚ
  expense_delta_pct : Option ℚ := none
  emergency_fund_balance : Option ℚ := none
  rent_or_housing : Option ℚ := none
  weekly_expenses : Option (List ℚ) := none
  previous_month_income : Option ℚ := none
  previous_month_expense : Option ℚ := none
  large_transactions : Option (List ℚ) := none
  cash_withdrawals : Option ℚ := none
  loan_emi_total : Option ℚ := none
  zero_income_days : Option ℤ := none
  consecutive_deficit_count : Option ℤ := none
  previous_savings_balance : Option ℚ := none
  current_savings_balance : Option ℚ := none

/-- `RuleTrigger` (pydantic model): outcome of one rule evaluation. -/
structure RuleTrigger where
  rule_id : String
  triggered : Bool
  severity : Option String := none
  weight : ℚ := 1
  params : Ctx := []
  reason : Option String := none
  data_refs : List String := []

/-- `RuleDefinition` (dataclass): one rule from the registry. -/
structure RuleDefinition where
  id : String
  bucket : String
  name : String
  enabled : Bool := true
  priority : ℤ := 5
  weight : ℚ := 1
  condition : Condition
  severity : SeverityDef
  params : List (String × Value) := []
  message_template : String
  data_refs : List String := []
  recommendation_id : String := ""

/-- `DEFAULTS["persona_min_savings"]`. -/
def defaults_persona_min_savings : Value :=
  .dict [(("gig_worker"), .num 0.25), (("salaried"), .num 0.20), (("default"), .num 0.20)]

/-- `DEFAULTS["volatility_threshold"]`. -/
def defaults_volatility_threshold : Value :=
  .dict [(("gig_worker"), .num 0.30), (("salaried"), .num 0.20), (("default"), .num 0.25)]

/-- `DEFAULTS["overspend_bands"]`. -/
def defaults_overspend_bands : Value :=
  .dict [(("low"), .num 0.10), (("med"), .num 0.20), (("high"), .num 0.35)]

/-- `DEFAULTS["deficit_bands"]`. -/
def defaults_deficit_bands : Value :=
  .dict [(("low"), .num 0.05), (("med"), .num 0.15)]

/-- `DEFAULTS["emergency_fund_months"]`. -/
def defaults_emergency_fund_months : Value :=
  .dict [(("gig_worker"), .num 6), (("salaried"), .num 3), (("default"), .num 3)]

/-- `DEFAULTS["category_thresholds"]` as a rational-valued map. -/
def category_thresholds_map : List (String × ℚ) :=
  [(("food"), 0.30), (("transport"), 0.20), (("entertainment"), 0.15), (("utilities"), 0.12)]

/-- `DEFAULTS["category_thresholds"]` as a context value. -/
def defaults_category_thresholds : Value :=
  .dict (category_thresholds_map.map (fun kv => (kv.1, .num kv.2)))

/-- `DEFAULTS["buffer_months_warning"]`. -/
def defaults_buffer_months_warning : Value :=
  .dict [(("gig_worker"), .num 4), (("salaried"), .num 2), (("default"), .num 2)]

/-! ### Context building and validation (`_build_context`, `_validate_context`) -/

/-- Python `max` of a nonempty float list (`0` is never consulted: callers
guard nonemptiness). -/
def listMax : List ℚ → ℚ
  | [] => 0
  | h :: t => t.foldl max h

/-- The weekly-expense derived metrics of `_build_context`:
`(max_weekly_expense, avg_weekly_expense, cashflow_coefficient_variation)`.
A missing or short list yields zeros; the coefficient of variation needs at
least three samples and positive average and divides `stdev` by the
average. -/
def weeklyStats (stdev : List ℚ → ℚ) (weekly : Option (List ℚ)) : ℚ × ℚ × ℚ :=
  match weekly with
  | some ws =>
      if ws.length ≥ 2 then
        let mx := listMax ws
        let avg := ws.sum / (ws.length : ℚ)
        let cv := if ws.length ≥ 3 ∧ avg > 0 then stdev ws / avg else 0
        (mx, avg, cv)
      else (0, 0, 0)
  | none => (0, 0, 0)

/-- The category-spend mapping as a context value. -/
def categorySpendValue (cs : List (String × ℚ)) : Value :=
  .dict (cs.map (fun kv => (kv.1, .num kv.2)))

/-- The `behavior_metrics` context entry: an empty dictionary when the input
has none, otherwise the four metrics with `None` defaulted. -/
def behaviorMetricsValue : Option BehaviorMetrics → Value
  | none => .dict []
  | some bm =>
      .dict [(("cashflow_stability"), .num (bm.cashflow_stability.getD 0)),
             (("discretionary_ratio"), .num (bm.discretionary_ratio.getD 0)),
             (("high_spend_days"), .num ((bm.high_spend_days.getD 0 : ℤ) : ℚ)),
             (("avg_daily_expense"), .num (bm.avg_daily_expense.getD 0))]

/-- The `forecast` context entry (confidence defaults to `1.0`). -/
def forecastValue : Option Forecast → Value
  | none => .dict []
  | some fc =>
      .dict [(("predicted_income_next_month"), .num (fc.predicted_income_next_month.getD 0)),
             (("predicted_expense_next_month"), .num (fc.predicted_expense_next_month.getD 0)),
             (("savings"), .num (fc.savings.getD 0)),
             (("confidence"), .num (fc.confidence.getD 1))]

/-- The `insights` context entry. -/
def insightsValue : Option Insights → Value
  | none => .dict []
  | some ins =>
      .dict [(("top_spend_category"), .str (ins.top_spend_category.getD (""))),
             (("category_drift"), .str (ins.category_drift.getD ("")))]

/-- `RuleEvaluator._build_context`, parametrised by `statistics.stdev`:
direct fields (optionals defaulted as in the source; `x or 0.0` coincides
with defaulting on floats), derived weekly metrics, nested objects and the
configuration constants, in the source's insertion order. -/
def build_context (stdev : List ℚ → ℚ) (data : NormalizedInput) : Ctx :=
  let ws := weeklyStats stdev data.weekly_expenses
  let max_large_transaction : ℚ :=
    match data.large_transactions with
    | some (h :: t) => listMax (h :: t)
    | _ => 0
  [(("current_month_income"), .num data.current_month_income),
   (("current_month_expense"), .num data.current_month_expense),
   (("avg_monthly_income"), .num data.avg_monthly_income),
   (("avg_monthly_expense"), .num data.avg_monthly_expense),
   (("savings_rate"), .num (data.savings_rate.getD 0)),
   (("income_volatility"), .num (data.income_volatility.getD 0)),
   (("net_cashflow"), .num data.net_cashflow),
   (("expense_delta_pct"), .num (data.expense_delta_pct.getD 0)),
   (("category_spend"), categorySpendValue data.category_spend),
   (("persona"), .str (pyOrStr data.persona_type ("default"))),
   (("emergency_fund_balance"), .num (data.emergency_fund_balance.getD 0)),
   (("rent_or_housing"), .num (data.rent_or_housing.getD 0)),
   (("consecutive_deficit_count"), .num ((data.consecutive_deficit_count.getD 0 : ℤ) : ℚ)),
   (("previous_savings_balance"), .num (data.previous_savings_balance.getD 0)),
   (("current_savings_balance"), .num (data.current_savings_balance.getD 0)),
   (("previous_month_income"), .num (data.previous_month_income.getD 0)),
   (("zero_income_days"), .num ((data.zero_income_days.getD 0 : ℤ) : ℚ)),
   (("cash_withdrawals"), .num (data.cash_withdrawals.getD 0)),
   (("loan_emi_total"), .num (data.loan_emi_total.getD 0)),
   (("max_weekly_expense"), .num ws.1),
   (("avg_weekly_expense"), .num ws.2.1),
   (("cashflow_coefficient_variation"), .num ws.2.2),
   (("max_large_transaction"), .num max_large_transaction),
   (("behavior_metrics"), behaviorMetricsValue data.behavior_metrics),
   (("forecast"), forecastValue data.forecast),
   (("insights"), insightsValue data.insights),
   (("persona_min_savings"), defaults_persona_min_savings),
   (("volatility_threshold"), defaults_volatility_threshold),
   (("overspend_bands"), defaults_overspend_bands),
   (("deficit_bands"), defaults_deficit_bands),
   (("rent_threshold"), .num 0.35),
   (("emergency_fund_months"), defaults_emergency_fund_months),
   (("category_thresholds"), defaults_category_thresholds),
   (("forecast_surplus_threshold"), .num 0.1),
   (("forecast_confidence_min"), .num 0.7),
   (("buffer_months_warning"), defaults_buffer_months_warning)]

/-- The required base fields checked by `_validate_context`. -/
def required_base_fields : List String :=
  [("persona"), ("current_month_income"), ("current_month_expense")]

/-- `RuleEvaluator._validate_context`: the context must be a nonempty
dictionary containing the three required base fields. -/
def validate_context (context : Ctx) (rule_def : RuleDefinition) : Bool :=
  if context.isEmpty then false
  else required_base_fields.all (fun f => (ctxGet context f).isSome)

/-! ### Params, message formatting and rule orchestration -/

/-- `RuleEvaluator._evaluate_params`: each parameter expression is resolved
independently; unresolved parameters are silently omitted. -/
def evaluate_params (params : List (String × Value)) (ctx extracted : Ctx) : Ctx :=
  params.foldl (fun result kv =>
    match resolve_expression kv.2 ctx extracted with
    | some v => result ++ [(kv.1, v)]
    | none => result) []

/-- Percentage-placeholder substitution for one key of `_format_message`:
only numeric (or boolean) values substitute, as `int(value * 100)`. -/
def pctSubst (msg key : String) (v : Value) : String :=
  match numOfValue v with
  | some q => msg.replace (("\x7b") ++ key ++ ("_pct\x7d")) (toString (pyTrunc (q * 100)))
  | none => msg

/-- `RuleEvaluator._format_message`: for each entry of the params map merged
with the extracted map, replace the simple placeholder and then the
percentage placeholder; placeholders with no matching key stay verbatim. -/
def format_message (template : String) (params extracted : Ctx) : String :=
  (pyDictUpdate params extracted).foldl (fun msg kv =>
    pctSubst (msg.replace (("\x7b") ++ kv.1 ++ ("\x7d")) (pyStr kv.2)) kv.1 kv.2) template

/-- Steps 1b–6 of `RuleEvaluator._evaluate_rule`, operating on an
already-built context (line 210 onward): failed validation yields a
non-triggered trigger for this rule; a non-triggered condition yields a
non-triggered trigger; otherwise severity (falsy values replaced by
`"medium"`), params and message are assembled into a triggered outcome. -/
def evaluate_rule_with_context (research : ReSearch) (rule_def : RuleDefinition)
    (context : Ctx) : Except String RuleTrigger :=
  if !(validate_context context rule_def) then
    .ok { rule_id := rule_def.id, triggered := false }
  else
    match evaluate_condition research rule_def.condition context with
    | .error e => .error e
    | .ok (triggered, extracted) =>
      if !triggered then .ok { rule_id := rule_def.id, triggered := false }
      else
        let severity := calculate_severity rule_def.severity context extracted
        let severity2 := if severity = "" then ("medium") else severity
        let params := evaluate_params rule_def.params context extracted
        let message := format_message rule_def.message_template params extracted
        .ok { rule_id := rule_def.id, triggered := true, severity := some severity2,
              weight := rule_def.weight, params := params, reason := some message,
              data_refs := rule_def.data_refs }

/-- `RuleEvaluator._evaluate_rule`: builds the context from the input and
delegates. -/
def evaluate_rule (research : ReSearch) (stdev : List ℚ → ℚ)
    (rule_def : RuleDefinition) (data : NormalizedInput) : Except String RuleTrigger :=
  evaluate_rule_with_context research rule_def (build_context stdev data)

/-- State of the `evaluate_all` loop: emitted triggers and the set of rule
ids that already produced a triggered outcome. -/
structure EvalState where
  triggers : List RuleTrigger := []
  triggered_ids : List String := []

/-- The safe non-triggered trigger emitted when a rule evaluation raises:
severity `"low"`, the error message in `params`, a truncated reason. -/
def error_trigger (rule_def : RuleDefinition) (e : String) : RuleTrigger :=
  { rule_id := rule_def.id, triggered := false, severity := some ("low"),
    params := [(("error"), .str e)],
    reason := some (("Rule evaluation failed: ") ++ pyTake e 100) }

/-- One iteration of the `evaluate_all` loop: a raised exception is caught
and converted to `error_trigger`; a duplicate triggered outcome (same rule id
already triggered) is skipped; otherwise the trigger is appended and, if
triggered, its id recorded. -/
def eval_step (evalRule : RuleDefinition → Except String RuleTrigger)
    (s : EvalState) (rule_def : RuleDefinition) : EvalState :=
  match evalRule rule_def with
  | .ok trigger =>
      if trigger.triggered && s.triggered_ids.contains trigger.rule_id then s
      else
        { triggers := s.triggers ++ [trigger],
          triggered_ids :=
            if trigger.triggered then s.triggered_ids ++ [trigger.rule_id]
            else s.triggered_ids }
  | .error e => { s with triggers := s.triggers ++ [error_trigger rule_def e] }

/-- `RuleEvaluator.evaluate_all`, parametrised by the per-rule evaluator: the
loop over the rule list.  The plain (non-`Except`) result type reflects that
every raising operation of the loop body sits behind the catch. -/
def evaluate_allWith (evalRule : RuleDefinition → Except String RuleTrigger)
    (rules : List RuleDefinition) : List RuleTrigger :=
  (rules.foldl (eval_step evalRule) {}).triggers

/-- Stable insertion preserving the relative order of equal priorities. -/
def insertByPriority (r : RuleDefinition) : List RuleDefinition → List RuleDefinition
  | [] => [r]
  | h :: t => if h.priority ≤ r.priority then h :: insertByPriority r t else r :: h :: t

/-- Stable sort by ascending priority (Python `sorted` is stable). -/
def sortByPriority (rules : List RuleDefinition) : List RuleDefinition :=
  rules.foldr insertByPriority []

/-- `RuleRegistry.get_enabled_rules`: enabled rules sorted by priority. -/
def get_enabled_rules (rules : List RuleDefinition) : List RuleDefinition :=
  sortByPriority (rules.filter (fun r => r.enabled))

/-- `RuleEvaluator.evaluate_all` over a registry's rule list. -/
def evaluate_all (research : ReSearch) (stdev : List ℚ → ℚ)
    (registry_rules : List RuleDefinition) (data : NormalizedInput) : List RuleTrigger :=
  evaluate_allWith (fun r => evaluate_rule research stdev r data)
    (get_enabled_rules registry_rules)

/-! ### Risk aggregator (`risks.py`) -/

/-- One contributor record of a risk dimension (`rule_id`, `severity`,
`weight` as stored by `build_risks`; `severity` may be Python `None`). -/
structure Contributor where
  rule_id : String
  severity : Option String
  weight : ℚ

/-- `_severity_to_multiplier`: `none=0, low=1, medium=2, high=3`, any other
string defaulting to `1.0`. -/
def severity_to_multiplier (severity : String) : ℚ :=
  if severity = "none" then 0
  else if severity = "low" then 1
  else if severity = "medium" then 2
  else if severity = "high" then 3
  else 1

/-- Position of a severity in the list `["none", "low", "medium", "high"]`;
`none` models the `ValueError` of `list.index` on anything else. -/
def severity_order_index (s : String) : Option ℕ :=
  if s = "none" then some 0
  else if s = "low" then some 1
  else if s = "medium" then some 2
  else if s = "high" then some 3
  else none

/-- `_max_severity`: the argument with the larger order index (ties keep the
first); an unknown severity raises `ValueError`. -/
def max_severity (a b : String) : Except String String :=
  match severity_order_index a, severity_order_index b with
  | some ia, some ib => .ok (if ia ≥ ib then a else b)
  | _, _ => .error ("ValueError: severity not in list")

/-- The multiplier applied to one contributor: the stored severity may be
Python `None`, in which case the multiplier dictionary's `.get` default
`1.0` applies. -/
def contributorMultiplier (sev : Option String) : ℚ :=
  match sev with
  | some s => severity_to_multiplier s
  | none => 1

/-- One iteration of the `_calculate_weighted_score` loop: accumulate the
weighted contribution, the maximum-possible contribution (`weight * 3`) and
the running maximum severity (`list.index` on `None` raises). -/
def cwsStep (acc : ℚ × ℚ × String) (contrib : Contributor) :
    Except String (ℚ × ℚ × String) :=
  let mult := contributorMultiplier contrib.severity
  let ms : Except String String :=
    match contrib.severity with
    | some s => max_severity acc.2.2 s
    | none => .error ("ValueError: severity not in list")
  match ms with
  | .error e => .error e
  | .ok m => .ok (acc.1 + contrib.weight * mult, acc.2.1 + contrib.weight * 3, m)

/-- `_calculate_weighted_score`: `(0, 0, "none")` for an empty contributor
list, otherwise the loop from that same initial state. -/
def calculate_weighted_score (contributors : List Contributor) :
    Except String (ℚ × ℚ × String) :=
  if contributors.isEmpty then .ok (0, 0, ("none"))
  else contributors.foldlM cwsStep (0, 0, ("none"))

/-- The normalization step of `build_risks`:
`weighted_score / max_possible * 100` when `max_possible > 0`, else `0`. -/
def normalized_score (weighted_score max_possible : ℚ) : ℚ :=
  if max_possible > 0 then weighted_score / max_possible * 100 else 0

/-- `RiskItem` (pydantic model). -/
structure RiskItem where
  id : String
  dimension : String
  score : ℚ
  severity : String
  summary : String
  reasons : List String := []
  data_refs : List String := []
  contributors : List Contributor := []
  weighted_score : Option ℚ := none
  max_possible_score : Option ℚ := none

/-- The static rule-id to dimension lookup table of `build_risks`. -/
def dim_map : List (String × String) :=
  [(("R-DEFICIT-01"), ("deficit")),
   (("R-FCAST-DEF-01"), ("deficit")),
   (("R-CONSEC-DEF-01"), ("deficit")),
   (("R-OVRSPEND-01"), ("overspend")),
   (("R-WEEKLY-SPIKE-01"), ("overspend")),
   (("R-SAVE-LOW-01"), ("savings")),
   (("R-EMERG-FUND-01"), ("savings")),
   (("R-SAVE-DEPLETE-01"), ("savings")),
   (("R-RENT-HIGH-01"), ("overspend")),
   (("R-VOL-INC-01"), ("volatility")),
   (("R-INCOME-DROP-01"), ("volatility")),
   (("R-CASHFLOW-VAR-01"), ("volatility")),
   (("R-STAB-LOW-01"), ("stability")),
   (("R-LARGE-TXN-01"), ("stability")),
   (("R-ZERO-INC-DAYS-01"), ("stability")),
   (("R-DISC-HIGH-01"), ("discretionary")),
   (("R-HSD-01"), ("discretionary")),
   (("R-CAT-DRIFT-01"), ("category_outlier")),
   (("R-TOP-CAT-HEAVY-01"), ("category_outlier")),
   (("R-FOOD-HIGH-01"), ("category_outlier")),
   (("R-TRANSPORT-HIGH-01"), ("category_outlier")),
   (("R-UTILITIES-SPIKE-01"), ("category_outlier")),
   (("R-CASH-SPIKE-01"), ("category_outlier")),
   (("R-LOAN-EMI-HIGH-01"), ("category_outlier")),
   (("R-FCAST-SURPLUS-01"), ("savings")),
   (("R-BUFFER-WARN-01"), ("savings")),
   (("R-FCAST-CONF-LOW-01"), ("stability")),
   (("R-FCAST-DEF-LARGE-01"), ("deficit"))]

/-- Per-dimension accumulator of `build_risks`. -/
structure DimInfo where
  sev : String := "none"
  reasons : List String := []
  refs : List String := []
  contributors : List Contributor := []

/-- The seven dimensions in the source's insertion order. -/
def initDims : List (String × DimInfo) :=
  [(("deficit"), {}), (("overspend"), {}), (("savings"), {}), (("volatility"), {}),
   (("stability"), {}), (("discretionary"), {}), (("category_outlier"), {})]

/-- In-place value update of a dictionary entry (keys keep their position). -/
def setDim (dims : List (String × DimInfo)) (k : String) (v : DimInfo) :
    List (String × DimInfo) :=
  dims.map (fun p => if p.1 = k then (p.1, v) else p)

/-- The first loop of `build_risks`: a triggered rule whose id maps to a
dimension updates that dimension's running maximum severity (`r.severity or
"low"`), reasons (truthy only), data references and contributors. -/
def risksAddTrigger (dims : List (String × DimInfo)) (r : RuleTrigger) :
    Except String (List (String × DimInfo)) :=
  if !r.triggered then .ok dims
  else
    match List.lookup r.rule_id dim_map with
    | none => .ok dims
    | some dim =>
        let info := (List.lookup dim dims).getD {}
        match max_severity info.sev (pyOrStr r.severity ("low")) with
        | .error e => .error e
        | .ok sev =>
            let reasons := match r.reason with
              | some rs => if rs = "" then info.reasons else info.reasons ++ [rs]
              | none => info.reasons
            .ok (setDim dims dim
              { sev := sev, reasons := reasons, refs := info.refs ++ r.data_refs,
                contributors := info.contributors ++
                  [{ rule_id := r.rule_id, severity := r.severity, weight := r.weight }] })

/-- `str.capitalize()`. -/
def pyCapitalize (s : String) : String :=
  match s.toList with
  | [] => ""
  | c :: rest => String.mk (c.toUpper :: rest.map Char.toLower)

/-- `list(dict.fromkeys(l))`: deduplication keeping first occurrences. -/
def dedupFirstAux (seen : List String) : List String → List String
  | [] => []
  | h :: t => if seen.contains h then dedupFirstAux seen t else h :: dedupFirstAux (h :: seen) t

/-- Deduplication of the data-reference list, first occurrence wins. -/
def dedupFirst (l : List String) : List String :=
  dedupFirstAux [] l

/-- The aggregation step of `build_risks` for one dimension: skipped without
contributors, otherwise a `RiskItem` with the rounded normalized score,
weighted score and maximum-possible score. -/
def riskOfDim (p : String × DimInfo) : Except String (Option RiskItem) :=
  if p.2.contributors.isEmpty then .ok none
  else
    match calculate_weighted_score p.2.contributors with
    | .error e => .error e
    | .ok (ws, mps, overall) =>
        let ns := normalized_score ws mps
        .ok (some
          { id := ("RK-") ++ pyUpper p.1,
            dimension := p.1,
            score := roundTo 1 ns,
            severity := overall,
            summary := pyCapitalize p.1 ++ (" risk: ") ++ overall,
            reasons := p.2.reasons,
            data_refs := dedupFirst p.2.refs,
            contributors := p.2.contributors,
            weighted_score := some (roundTo 2 ws),
            max_possible_score := some (roundTo 2 mps) })

/-- `build_risks`: distribute triggered rules over the dimensions, then emit
one `RiskItem` per dimension with at least one contributor (the `data`
parameter is unused, as in the source). -/
def build_risks (data : NormalizedInput) (rules : List RuleTrigger) :
    Except String (List RiskItem) :=
  match rules.foldlM risksAddTrigger initDims with
  | .error e => .error e
  | .ok dims =>
      dims.foldlM (fun acc p =>
        match riskOfDim p with
        | .error e => .error e
        | .ok (some ri) => .ok (acc ++ [ri])
        | .ok none => .ok acc) ([] : List RiskItem)

/-! ### Recommendation builder (`recommendations.py`) -/

/-- `DEFAULTS["currency"]`. -/
def currency : String := "₹"

/-- `_fmt_pct`: `int(round(x * 100))` with every exception (for example a
`None` or string argument) caught and converted to `0`. -/
def fmt_pct (x : Option Value) : ℤ :=
  match x with
  | some v =>
      match numOfValue v with
      | some q => roundHalfEvenInt (q * 100)
      | none => 0
  | none => 0

/-- `_fmt_currency`: the currency symbol and the rounded amount, with every
exception caught and converted to the zero amount. -/
def fmt_currency (amount : Value) : String :=
  match numOfValue amount with
  | some q => currency ++ toString (roundHalfEvenInt q)
  | none => currency ++ ("0")

/-- `_calculate_smart_cap`: the minimum of the current spend and the larger
of `income * target_ratio` and 80 percent of the current spend. -/
def calculate_smart_cap (current_spend income target_ratio : ℚ) : ℚ :=
  let target_from_income := income * target_ratio
  let gradual_reduction := current_spend * 0.8
  let achievable_target := max target_from_income gradual_reduction
  min current_spend achievable_target

/-- `Recommendation` (pydantic model); `amounts` values may be Python
`None`. -/
structure Recommendation where
  id : String
  title : String
  body : String
  actions : List String
  amounts : List (String × Option Value) := []
  linked_risks : List String := []
  priority : ℤ := 3
  valid_for_days : ℤ := 30
  data_refs : List String := []

/-- The rule index `\x7br.rule_id: r for r in rules\x7d`: a dictionary
comprehension keeps the last entry per key. -/
def rule_index (rules : List RuleTrigger) (rid : String) : Option RuleTrigger :=
  rules.reverse.find? (fun r => r.rule_id == rid)

/-- The risk index `\x7br.dimension: r for r in risks\x7d` (last wins). -/
def risk_index (risks : List RiskItem) (dim : String) : Option RiskItem :=
  risks.reverse.find? (fun r => r.dimension == dim)

/-- `[risk_index[dim].id] if dim in risk_index else []`. -/
def linked_risk (risks : List RiskItem) (dim : String) : List String :=
  match risk_index risks dim with
  | some ri => [ri.id]
  | none => []

/-- Python `value * q` where `value` came from a params dictionary; a
non-numeric value raises `TypeError`. -/
def pyMulNum (v : Value) (q : ℚ) : Except String ℚ :=
  match numOfValue v with
  | some a => .ok (a * q)
  | none => .error ("TypeError: unsupported operand type for *")

/-- Python `value / q`; a non-numeric value raises `TypeError` and a zero
divisor raises `ZeroDivisionError`. -/
def pyDivNum (v : Value) (q : ℚ) : Except String ℚ :=
  match numOfValue v with
  | some a => if q = 0 then .error ("ZeroDivisionError") else .ok (a / q)
  | none => .error ("TypeError: unsupported operand type for /")

/-- Python `q - value`; a non-numeric value raises `TypeError`. -/
def pyRSubNum (q : ℚ) (v : Value) : Except String ℚ :=
  match numOfValue v with
  | some a => .ok (q - a)
  | none => .error ("TypeError: unsupported operand type for -")

/-- Python `int(value)`: truncation for numbers, digits-only parsing for
strings (otherwise `ValueError`), `TypeError` for anything else. -/
def pyIntOfValue (v : Value) : Except String ℤ :=
  match v with
  | .num q => .ok (pyTrunc q)
  | .bool b => .ok (if b then 1 else 0)
  | .str s =>
      match parseIntZ s with
      | some n => .ok n
      | none => .error ("ValueError: invalid literal for int")
  | _ => .error ("TypeError: int argument must be a number")

/-- Python `value.lower()`; `AttributeError` on non-strings. -/
def pyLower (v : Value) : Except String String :=
  match v with
  | .str s => .ok (String.mk (s.toList.map Char.toLower))
  | _ => .error ("AttributeError: lower")

/-- Fixed-point rendering for the `:.Nf` format specifications (Python
formats with round-half-even). -/
def fmtFixed (prec : ℕ) (q : ℚ) : String :=
  let r := roundHalfEvenInt (q * (10 : ℚ) ^ prec)
  if prec = 0 then toString r
  else
    let a := r.natAbs
    let sign := if r < 0 then ("-") else ("")
    sign ++ toString (a / 10 ^ prec) ++ (".") ++ natDigitsPad (a % 10 ^ prec) prec

/-- The field names of the pydantic `NormalizedInput` model. -/
def normalizedInputFields : List String :=
  [("user_id"), ("month"), ("avg_monthly_income"), ("avg_monthly_expense"),
   ("current_month_income"), ("current_month_expense"), ("savings_rate"),
   ("income_volatility"), ("risk_level"), ("category_spend"), ("behavior_metrics"),
   ("forecast"), ("persona_type"), ("confidence_score"), ("last_updated"), ("insights"),
   ("net_cashflow"), ("expense_delta_pct"), ("emergency_fund_balance"), ("rent_or_housing"),
   ("weekly_expenses"), ("previous_month_income"), ("previous_month_expense"),
   ("large_transactions"), ("cash_withdrawals"), ("loan_emi_total"), ("zero_income_days"),
   ("consecutive_deficit_count"), ("previous_savings_balance"), ("current_savings_balance")]

/-- List of rationals as a value. -/
def listNumValue (l : List ℚ) : Value :=
  .list (l.map Value.num)

/-- The value of a declared `NormalizedInput` field by name (`none` is Python
`None`; submodels are represented by their dictionary views).  Consulted only
for names in `normalizedInputFields`. -/
def dataFieldGet (data : NormalizedInput) (name : String) : Option Value :=
  if name = "user_id" then some (.str data.user_id)
  else if name = "month" then some (.str data.month)
  else if name = "avg_monthly_income" then some (.num data.avg_monthly_income)
  else if name = "avg_monthly_expense" then some (.num data.avg_monthly_expense)
  else if name = "current_month_income" then some (.num data.current_month_income)
  else if name = "current_month_expense" then some (.num data.current_month_expense)
  else if name = "savings_rate" then data.savings_rate.map Value.num
  else if name = "income_volatility" then data.income_volatility.map Value.num
  else if name = "risk_level" then data.risk_level.map Value.str
  else if name = "category_spend" then some (categorySpendValue data.category_spend)
  else if name = "behavior_metrics" then
    data.behavior_metrics.map (fun bm => behaviorMetricsValue (some bm))
  else if name = "forecast" then data.forecast.map (fun fc => forecastValue (some fc))
  else if name = "persona_type" then data.persona_type.map Value.str
  else if name = "confidence_score" then data.confidence_score.map Value.num
  else if name = "last_updated" then data.last_updated.map Value.str
  else if name = "insights" then data.insights.map (fun ins => insightsValue (some ins))
  else if name = "net_cashflow" then some (.num data.net_cashflow)
  else if name = "expense_delta_pct" then data.expense_delta_pct.map Value.num
  else if name = "emergency_fund_balance" then data.emergency_fund_balance.map Value.num
  else if name = "rent_or_housing" then data.rent_or_housing.map Value.num
  else if name = "weekly_expenses" then data.weekly_expenses.map listNumValue
  else if name = "previous_month_income" then data.previous_month_income.map Value.num
  else if name = "previous_month_expense" then data.previous_month_expense.map Value.num
  else if name = "large_transactions" then data.large_transactions.map listNumValue
  else if name = "cash_withdrawals" then data.cash_withdrawals.map Value.num
  else if name = "loan_emi_total" then data.loan_emi_total.map Value.num
  else if name = "zero_income_days" then data.zero_income_days.map (fun n => Value.num (n : ℚ))
  else if name = "consecutive_deficit_count" then
    data.consecutive_deficit_count.map (fun n => Value.num (n : ℚ))
  else if name = "previous_savings_balance" then data.previous_savings_balance.map Value.num
  else if name = "current_savings_balance" then data.current_savings_balance.map Value.num
  else none

/-- Attribute access on the pydantic `NormalizedInput` model: a name that is
not a declared field raises `AttributeError`. -/
def pydanticGetAttr (data : NormalizedInput) (name : String) : Except String (Option Value) :=
  if normalizedInputFields.contains name then .ok (dataFieldGet data name)
  else .error (("AttributeError: ") ++ name)

/-- The `R-DEFICIT-01` branch of `build_recommendations`. -/
def rec_deficit (data : NormalizedInput) (risks : List RiskItem)
    (rt : Option RuleTrigger) (recs : List Recommendation) :
    Except String (List Recommendation) :=
  match rt with
  | none => .ok recs
  | some r =>
    if !r.triggered then .ok recs
    else
      let gap := (List.lookup ("gap_amt") r.params).getD (.num 0)
      match pyDivNum gap (max data.current_month_expense 0.000001) with
      | .error e => .error e
      | .ok gapRatio =>
        let cut_pct := min 0.20 (max 0.10 gapRatio)
        match pyIntOfValue gap with
        | .error e => .error e
        | .ok gapInt =>
          .ok (recs ++ [{
            id := ("REC-BALANCE-01"),
            title := ("Close this month\u0027s gap"),
            body := ("You\u0027re short by ") ++ currency ++ toString gapInt ++
              (" this month. Reduce discretionary spend by ") ++
              toString (fmt_pct (some (.num cut_pct))) ++
              ("% across top categories to balance."),
            actions := [("Set weekly discretionary budget envelopes"),
                        ("Pause non-essential subscriptions until balance is restored")],
            amounts := [(("target_cut_pct"), some (.num cut_pct))],
            linked_risks := linked_risk risks ("deficit"),
            priority := 1,
            data_refs := [("/current_month_expense"), ("/current_month_income")] }])

/-- The `R-SAVE-LOW-01` branch of `build_recommendations`. -/
def rec_save_low (risks : List RiskItem) (rt : Option RuleTrigger)
    (recs : List Recommendation) : Except String (List Recommendation) :=
  match rt with
  | none => .ok recs
  | some r =>
    if !r.triggered then .ok recs
    else
      let target := List.lookup ("target_rate") r.params
      .ok (recs ++ [{
        id := ("REC-SAVE-BOOST-01"),
        title := ("Boost savings rate"),
        body := ("Savings rate is below target. Set an auto-transfer to reach ") ++
          toString (fmt_pct target) ++ ("% upon income receipt."),
        actions := [("Create automated savings transfer on payday")],
        amounts := [(("new_savings_rate"), target)],
        linked_risks := linked_risk risks ("savings"),
        priority := 2,
        data_refs := [("/savings_rate")] }])

/-- The `R-VOL-INC-01` branch of `build_recommendations`. -/
def rec_vol (data : NormalizedInput) (risks : List RiskItem) (rt : Option RuleTrigger)
    (recs : List Recommendation) : Except String (List Recommendation) :=
  match rt with
  | none => .ok recs
  | some r =>
    if !r.triggered then .ok recs
    else
      let persona := pyOrStr data.persona_type ("default")
      let n : ℤ := if persona = "gig_worker" then 6 else 3
      let buf_target := (n : ℚ) * data.avg_monthly_expense
      .ok (recs ++ [{
        id := ("REC-BUFFER-01"),
        title := ("Build income buffer"),
        body := ("Income volatility is elevated. Build a ") ++ toString n ++
          ("-month buffer of ") ++ currency ++ toString (pyTrunc buf_target) ++ ("."),
        actions := [("Allocate a buffer sub-account"),
                    ("Divert surplus to buffer until target reached")],
        amounts := [(("buffer_target"), some (.num buf_target)), (("months"), some (.num (n : ℚ)))],
        linked_risks := linked_risk risks ("volatility"),
        priority := 1,
        data_refs := [("/income_volatility")] }])

/-- The `R-OVRSPEND-01` branch of `build_recommendations`. -/
def rec_overspend (data : NormalizedInput) (risks : List RiskItem) (rt : Option RuleTrigger)
    (recs : List Recommendation) : Except String (List Recommendation) :=
  match rt with
  | none => .ok recs
  | some r =>
    if !r.triggered then .ok recs
    else
      let cap := data.avg_monthly_expense * 1.05
      .ok (recs ++ [{
        id := ("REC-CAP-01"),
        title := ("Set monthly cap"),
        body := ("Expenses exceed average. Set a soft cap at ") ++ currency ++
          toString (pyTrunc cap) ++ (" (≈105% of average)."),
        actions := [("Enable monthly cap alerts"), ("Lock discretionary spend after cap")],
        amounts := [(("cap_amount"), some (.num cap))],
        linked_risks := linked_risk risks ("overspend"),
        priority := 2,
        data_refs := [("/avg_monthly_expense"), ("/current_month_expense")] }])

/-- The `R-CAT-DRIFT-01` branch of `build_recommendations` (a falsy category
parameter only logs a warning and adds nothing). -/
def rec_cat_drift (data : NormalizedInput) (risks : List RiskItem) (rt : Option RuleTrigger)
    (recs : List Recommendation) : Except String (List Recommendation) :=
  match rt with
  | none => .ok recs
  | some r =>
    if !r.triggered then .ok recs
    else
      match List.lookup ("category") r.params with
      | none => .ok recs
      | some cat =>
        if !(pyTruthy cat) then .ok recs
        else
          let current_spend := match cat with
            | .str s => (List.lookup s data.category_spend).getD 0
            | _ => 0
          let income := pyOrQ data.current_month_income data.avg_monthly_income
          match pyLower cat with
          | .error e => .error e
          | .ok lcat =>
            let category_target := (List.lookup lcat category_thresholds_map).getD 0.15
            let temp_cap := calculate_smart_cap current_spend income category_target
            let reduction_pct :=
              if current_spend > 0 then (current_spend - temp_cap) / current_spend * 100 else 0
            .ok (recs ++ [{
              id := ("REC-CAT-AUDIT-01"),
              title := ("Audit category: ") ++ pyStr cat,
              body := pyStr cat ++ (" spending jumped recently to ") ++
                fmt_currency (.num current_spend) ++
                (". Run a 1-week audit and reduce to ") ++ fmt_currency (.num temp_cap) ++
                (" (") ++ fmtFixed 0 reduction_pct ++ ("% reduction)."),
              actions := [("Review last 10 transactions in ") ++ pyStr cat,
                          ("Set temporary cap at ") ++ fmt_currency (.num temp_cap),
                          ("Identify recurring charges that can be cancelled")],
              amounts := [(("category"), some cat), (("temp_cap"), some (.num temp_cap)),
                          (("reduction_pct"), some (.num reduction_pct))],
              linked_risks := linked_risk risks ("category_outlier"),
              priority := 3,
              data_refs := [("/category_spend/") ++ pyStr cat] }])

/-- The `R-DISC-HIGH-01` / `R-HSD-01` branch of `build_recommendations`. -/
def rec_spend_alert (data : NormalizedInput) (risks : List RiskItem)
    (rdisc rhsd : Option RuleTrigger) (recs : List Recommendation) :
    Except String (List Recommendation) :=
  let hit := (match rdisc with | some r => r.triggered | none => false) ||
             (match rhsd with | some r => r.triggered | none => false)
  if !hit then .ok recs
  else
    let income := pyOrQ data.current_month_income data.avg_monthly_income
    let essential := income * 0.65
    let available := income - essential
    let target_discretionary := available * 0.6
    let daily_budget := target_discretionary / 30
    .ok (recs ++ [{
      id := ("REC-SPEND-ALERT-01"),
      title := ("Tighten daily spending"),
      body := ("Discretionary spending is high. Set a daily budget of ") ++
        fmt_currency (.num daily_budget) ++
        (" and enable alerts when you hit 80% of daily limit."),
      actions := [("Enable daily alerts at ") ++ fmt_currency (.num (daily_budget * 0.8)) ++
                    (" (80% of daily budget)"),
                  ("Apply hard stops after daily budget is exceeded"),
                  ("Use cash envelopes for discretionary categories")],
      amounts := [(("daily_budget"), some (.num daily_budget)),
                  (("monthly_target"), some (.num target_discretionary))],
      linked_risks := linked_risk risks ("discretionary"),
      priority := 3,
      data_refs := [("/behavior_metrics/discretionary_ratio")] }])

/-- The `R-EMERG-FUND-01` branch of `build_recommendations`. -/
def rec_emerg (data : NormalizedInput) (risks : List RiskItem) (rt : Option RuleTrigger)
    (recs : List Recommendation) : Except String (List Recommendation) :=
  match rt with
  | none => .ok recs
  | some r =>
    if !r.triggered then .ok recs
    else
      let required := (List.lookup ("required_fund") r.params).getD (.num 0)
      let shortfall := (List.lookup ("shortfall") r.params).getD (.num 0)
      let income := pyOrQ data.current_month_income data.avg_monthly_income
      let monthly_allocation := income * 0.10
      let monthsE : Except String ℤ :=
        if monthly_allocation > 0 then
          match pyDivNum shortfall monthly_allocation with
          | .error e => .error e
          | .ok q => .ok (pyTrunc q)
        else .ok 0
      match monthsE with
      | .error e => .error e
      | .ok months_to_target =>
        .ok (recs ++ [{
          id := ("REC-EMERG-FUND-01"),
          title := ("Build emergency fund"),
          body := ("Your emergency fund is ") ++ fmt_currency shortfall ++
            (" short of the recommended ") ++ fmt_currency required ++
            (". Allocate ") ++ fmt_currency (.num monthly_allocation) ++
            (" monthly (10% of income) to reach target in ~") ++
            toString months_to_target ++ (" months."),
          actions := [("Set up auto-transfer of ") ++ fmt_currency (.num monthly_allocation) ++
                        (" on payday"),
                      ("Allocate all windfalls to emergency fund"),
                      ("Review and increase allocation after 3 months")],
          amounts := [(("required_fund"), some required), (("shortfall"), some shortfall),
                      (("monthly_allocation"), some (.num monthly_allocation)),
                      (("months_to_target"), some (.num (months_to_target : ℚ)))],
          linked_risks := linked_risk risks ("savings"),
          priority := 1,
          data_refs := [("/emergency_fund_balance")] }])

/-- The `R-RENT-HIGH-01` branch of `build_recommendations`. -/
def rec_rent (risks : List RiskItem) (rt : Option RuleTrigger)
    (recs : List Recommendation) : Except String (List Recommendation) :=
  match rt with
  | none => .ok recs
  | some r =>
    if !r.triggered then .ok recs
    else
      let rent_ratio := (List.lookup ("rent_ratio") r.params).getD (.num 0)
      match pyMulNum rent_ratio 100 with
      | .error e => .error e
      | .ok rr100 =>
        .ok (recs ++ [{
          id := ("REC-RENT-REDUCE-01"),
          title := ("Housing cost is too high"),
          body := ("Housing takes up ") ++ fmtFixed 1 rr100 ++
            ("% of income (recommended: ≤35%). Consider relocating or finding a roommate."),
          actions := [("Explore cheaper housing options"), ("Negotiate rent reduction"),
                      ("Consider shared accommodation")],
          amounts := [(("current_rent_ratio"), some rent_ratio)],
          linked_risks := linked_risk risks ("overspend"),
          priority := 2,
          data_refs := [("/rent_or_housing")] }])

/-- The `R-CONSEC-DEF-01` branch of `build_recommendations`. -/
def rec_consec (risks : List RiskItem) (rt : Option RuleTrigger)
    (recs : List Recommendation) : Except String (List Recommendation) :=
  match rt with
  | none => .ok recs
  | some r =>
    if !r.triggered then .ok recs
    else
      let months := (List.lookup ("consecutive_months") r.params).getD (.num 0)
      .ok (recs ++ [{
        id := ("REC-DEFICIT-STREAK-01"),
        title := ("Break the deficit streak"),
        body := ("You\u0027ve been in deficit for ") ++ pyStr months ++
          (" consecutive months. Urgent action needed to balance income and expenses."),
        actions := [("Cut all non-essential expenses immediately"),
                    ("Look for additional income sources"),
                    ("Review all subscriptions and cancel unused ones")],
        amounts := [(("deficit_months"), some months)],
        linked_risks := linked_risk risks ("deficit"),
        priority := 1,
        data_refs := [("/consecutive_deficit_count")] }])

/-- The `R-INCOME-DROP-01` branch of `build_recommendations`: note the read
of `data.total_essential_expense`, an attribute `NormalizedInput` does not
declare, which raises `AttributeError` (see `pydanticGetAttr`). -/
def rec_income_drop (data : NormalizedInput) (risks : List RiskItem)
    (rt : Option RuleTrigger) (recs : List Recommendation) :
    Except String (List Recommendation) :=
  match rt with
  | none => .ok recs
  | some r =>
    if !r.triggered then .ok recs
    else
      let drop_pct := (List.lookup ("drop_pct") r.params).getD (.num 0)
      let current_income := pyOrQ data.current_month_income data.avg_monthly_income
      let previous_income := pyOrOptQ data.previous_month_income current_income
      let income_loss := previous_income - current_income
      match pydanticGetAttr data ("total_essential_expense") with
      | .error e => .error e
      | .ok essentialAttr =>
        let essentialV : Value := match essentialAttr with
          | some v => if pyTruthy v then v else .num (current_income * 0.65)
          | none => .num (current_income * 0.65)
        match pyRSubNum current_income essentialV with
        | .error e => .error e
        | .ok afterEssential =>
          let adjusted_discretionary := max (afterEssential * 0.5) 0
          match pyMulNum drop_pct 100 with
          | .error e => .error e
          | .ok drop100 =>
            .ok (recs ++ [{
              id := ("REC-INCOME-DROP-01"),
              title := ("Income dropped significantly"),
              body := ("Your income dropped by ") ++ fmt_currency (.num income_loss) ++
                (" (") ++ fmtFixed 0 drop100 ++
                ("%) from last month. Reduce discretionary spending to ") ++
                fmt_currency (.num adjusted_discretionary) ++
                (" until income stabilizes."),
              actions := [("Scale down discretionary expenses by 50%"),
                          ("Set temporary monthly budget at ") ++
                            fmt_currency (.num adjusted_discretionary) ++
                            (" for non-essentials"),
                          ("Tap emergency fund if essential expenses can\u0027t be covered"),
                          ("Explore freelance/side gigs to supplement income")],
              amounts := [(("drop_percentage"), some drop_pct),
                          (("income_loss"), some (.num income_loss)),
                          (("adjusted_discretionary"), some (.num adjusted_discretionary))],
              linked_risks := linked_risk risks ("volatility"),
              priority := 1,
              data_refs := [("/previous_month_income"), ("/current_month_income")] }])

/-- The `R-LOAN-EMI-HIGH-01` branch of `build_recommendations`. -/
def rec_loan (data : NormalizedInput) (risks : List RiskItem) (rt : Option RuleTrigger)
    (recs : List Recommendation) : Except String (List Recommendation) :=
  match rt with
  | none => .ok recs
  | some r =>
    if !r.triggered then .ok recs
    else
      let emi_ratio := (List.lookup ("income_ratio") r.params).getD (.num 0)
      let income := pyOrQ data.current_month_income data.avg_monthly_income
      match pyMulNum emi_ratio income with
      | .error e => .error e
      | .ok current_emi =>
        let target_emi := income * 0.35
        let potential_savings := current_emi - target_emi
        match pyMulNum emi_ratio 100 with
        | .error e => .error e
        | .ok er100 =>
          .ok (recs ++ [{
            id := ("REC-LOAN-REFI-01"),
            title := ("Loan EMI burden is high"),
            body := ("Your loan EMI is ") ++ fmt_currency (.num current_emi) ++
              (" (") ++ fmtFixed 0 er100 ++
              ("% of income). Target: ≤40%. Refinancing could save ") ++
              fmt_currency (.num potential_savings) ++
              ("/month if you reduce EMI to ") ++ fmtFixed 0 er100 ++ ("% → 35%."),
            actions := [("Compare refinancing rates from 3+ lenders"),
                        ("Consolidate multiple loans to reduce interest"),
                        ("Negotiate with current lenders for rate reduction"),
                        ("Target monthly EMI: ") ++ fmt_currency (.num target_emi) ++
                          (" (35% of income)")],
            amounts := [(("emi_ratio"), some emi_ratio),
                        (("current_emi"), some (.num current_emi)),
                        (("target_emi"), some (.num target_emi)),
                        (("potential_savings"), some (.num potential_savings))],
            linked_risks := linked_risk risks ("category_outlier"),
            priority := 2,
            data_refs := [("/loan_emi_total")] }])

/-- The `R-FCAST-SURPLUS-01` branch of `build_recommendations`. -/
def rec_surplus (rt : Option RuleTrigger) (recs : List Recommendation) :
    Except String (List Recommendation) :=
  match rt with
  | none => .ok recs
  | some r =>
    if !r.triggered then .ok recs
    else
      let surplus := (List.lookup ("surplus_amount") r.params).getD (.num 0)
      match pyMulNum surplus 0.50 with
      | .error e => .error e
      | .ok savings_allocation =>
        match pyMulNum surplus 0.30 with
        | .error e => .error e
        | .ok investment_allocation =>
          match pyMulNum surplus 0.20 with
          | .error e => .error e
          | .ok reward_allocation =>
            .ok (recs ++ [{
              id := ("REC-SURPLUS-INVEST-01"),
              title := ("Great news: Surplus expected!"),
              body := ("Next month is forecasted to have a surplus of ") ++
                fmt_currency surplus ++ (". Smart allocation: ") ++
                fmt_currency (.num savings_allocation) ++ (" to savings (50%), ") ++
                fmt_currency (.num investment_allocation) ++ (" to investment (30%), ") ++
                fmt_currency (.num reward_allocation) ++ (" as reward (20%)."),
              actions := [("Auto-transfer ") ++ fmt_currency (.num savings_allocation) ++
                            (" to emergency fund"),
                          ("Invest ") ++ fmt_currency (.num investment_allocation) ++
                            (" in SIP/mutual funds"),
                          ("Reward yourself with ") ++ fmt_currency (.num reward_allocation) ++
                            (" guilt-free spending"),
                          ("Review allocation after 3 months")],
              amounts := [(("surplus_amount"), some surplus),
                          (("savings_allocation"), some (.num savings_allocation)),
                          (("investment_allocation"), some (.num investment_allocation)),
                          (("reward_allocation"), some (.num reward_allocation))],
              linked_risks := [],
              priority := 4,
              data_refs := [("/Forecast/predicted_income_next_month"),
                            ("/Forecast/predicted_expense_next_month")] }])

/-- Shared shape of the three category-spend branches (`Food`, `Transport`,
`Entertainment`): spend, ratio parameter (defaulting to the computed ratio),
smart cap at `target_ratio` of income and the projected savings. -/
def rec_category_reduce (data : NormalizedInput) (risks : List RiskItem)
    (rt : Option RuleTrigger) (recs : List Recommendation)
    (catKey ratioParam recId title bodyA bodyB bodyC dimension : String)
    (target_ratio : ℚ) (actionsOf : String → List String)
    (amountKeys : String × String × String) (prio : ℤ) :
    Except String (List Recommendation) :=
  match rt with
  | none => .ok recs
  | some r =>
    if !r.triggered then .ok recs
    else
      let spend := (List.lookup catKey data.category_spend).getD 0
      let income := pyOrQ data.current_month_income data.avg_monthly_income
      let default_ratio := if income > 0 then spend / income else 0
      let ratio := (List.lookup ratioParam r.params).getD (.num default_ratio)
      let target := calculate_smart_cap spend income target_ratio
      let savings := spend - target
      match pyMulNum ratio 100 with
      | .error e => .error e
      | .ok ratio100 =>
        .ok (recs ++ [{
          id := recId,
          title := title,
          body := bodyA ++ fmt_currency (.num spend) ++ (" (") ++ fmtFixed 0 ratio100 ++
            bodyB ++ fmt_currency (.num target) ++ (" to save ") ++
            fmt_currency (.num savings) ++ bodyC,
          actions := actionsOf (fmt_currency (.num target)),
          amounts := [((amountKeys.1), some (.num spend)),
                      ((amountKeys.2.1), some (.num target)),
                      ((amountKeys.2.2), some (.num savings))],
          linked_risks := linked_risk risks dimension,
          priority := prio,
          data_refs := [("/category_spend/") ++ catKey] }])

/-- The `R-FOOD-HIGH-01` branch of `build_recommendations`. -/
def rec_food (data : NormalizedInput) (risks : List RiskItem) (rt : Option RuleTrigger)
    (recs : List Recommendation) : Except String (List Recommendation) :=
  rec_category_reduce data risks rt recs ("Food") ("food_ratio") ("REC-FOOD-REDUCE-01")
    ("Food spending is above ideal range") ("Food spending at ")
    ("% of income). Target: ≤25%. Reduce to ") ("/month.") ("category_outlier") 0.25
    (fun t => [("Plan meals weekly to reduce impulsive dining out"),
               ("Cook in batches for 3-4 days"),
               ("Set food budget cap at ") ++ t,
               ("Cancel unused food delivery subscriptions")])
    ((("current_food"), ("target_food"), ("monthly_savings"))) 2

/-- The `R-TRANSPORT-HIGH-01` branch of `build_recommendations`. -/
def rec_transport (data : NormalizedInput) (risks : List RiskItem) (rt : Option RuleTrigger)
    (recs : List Recommendation) : Except String (List Recommendation) :=
  rec_category_reduce data risks rt recs ("Transport") ("transport_ratio")
    ("REC-TRANSPORT-REDUCE-01") ("Transport costs are elevated") ("Transport spending at ")
    ("% of income). Target: ≤15%. Optimize to ") ("/month.") ("category_outlier") 0.15
    (fun t => [("Use public transport instead of ride-sharing apps"),
               ("Carpool with colleagues for work commute"),
               ("Set transport budget cap at ") ++ t,
               ("Consider monthly passes for regular routes")])
    ((("current_transport"), ("target_transport"), ("monthly_savings"))) 2

/-- The `R-ENTERTAINMENT-HIGH-01` branch of `build_recommendations`. -/
def rec_entertainment (data : NormalizedInput) (risks : List RiskItem) (rt : Option RuleTrigger)
    (recs : List Recommendation) : Except String (List Recommendation) :=
  rec_category_reduce data risks rt recs ("Entertainment") ("entertainment_ratio")
    ("REC-ENTERTAINMENT-REDUCE-01") ("Entertainment spending is above recommended")
    ("Entertainment at ") ("% of income). Target: ≤10%. Cut to ") ("/month.")
    ("discretionary") 0.10
    (fun t => [("Review and cancel unused streaming subscriptions"),
               ("Look for free/low-cost entertainment alternatives"),
               ("Set entertainment budget at ") ++ t,
               ("Limit expensive outings to 1-2 per month")])
    ((("current_entertainment"), ("target_entertainment"), ("monthly_savings"))) 3

/-- `build_recommendations`: the branches in source order, each keyed by its
rule id through the last-wins rule index. -/
def build_recommendations (data : NormalizedInput) (risks : List RiskItem)
    (rules : List RuleTrigger) : Except String (List Recommendation) := do
  let recs ← rec_deficit data risks (rule_index rules ("R-DEFICIT-01")) []
  let recs ← rec_save_low risks (rule_index rules ("R-SAVE-LOW-01")) recs
  let recs ← rec_vol data risks (rule_index rules ("R-VOL-INC-01")) recs
  let recs ← rec_overspend data risks (rule_index rules ("R-OVRSPEND-01")) recs
  let recs ← rec_cat_drift data risks (rule_index rules ("R-CAT-DRIFT-01")) recs
  let recs ← rec_spend_alert data risks (rule_index rules ("R-DISC-HIGH-01"))
    (rule_index rules ("R-HSD-01")) recs
  let recs ← rec_emerg data risks (rule_index rules ("R-EMERG-FUND-01")) recs
  let recs ← rec_rent risks (rule_index rules ("R-RENT-HIGH-01")) recs
  let recs ← rec_consec risks (rule_index rules ("R-CONSEC-DEF-01")) recs
  let recs ← rec_income_drop data risks (rule_index rules ("R-INCOME-DROP-01")) recs
  let recs ← rec_loan data risks (rule_index rules ("R-LOAN-EMI-HIGH-01")) recs
  let recs ← rec_surplus (rule_index rules ("R-FCAST-SURPLUS-01")) recs
  let recs ← rec_food data risks (rule_index rules ("R-FOOD-HIGH-01")) recs
  let recs ← rec_transport data risks (rule_index rules ("R-TRANSPORT-HIGH-01")) recs
  let recs ← rec_entertainment data risks (rule_index rules ("R-ENTERTAINMENT-HIGH-01")) recs
  pure recs

/-- Does an `Except` computation end in a raised error? -/
def isError (x : Except String α) : Bool :=
  match x with
  | .ok _ => false
  | .error _ => true

/-! ### Specification-side definitions (for refinement statements) -/

/-- Band selection as the specification words it: walk the bands top-down and
return the severity of the first band whose threshold is null or at most the
metric value; if no band matches return the last band's severity, or `"low"`
when the band list is empty. -/
def spec_banded_select (v : ℚ) : List Band → String
  | [] => "low"
  | b :: rest =>
      match b.threshold with
      | none => b.severity
      | some t =>
          if t ≤ v then b.severity
          else
            match rest with
            | [] => b.severity
            | _ :: _ => spec_banded_select v rest

/-- Rank of a severity name in the order `none < low < medium < high`. -/
def sevRank (s : String) : ℕ :=
  (severity_order_index s).getD 0

/-- The maximum severity of a list under the order `none < low < medium <
high`, as the specification words it (starting from `"none"`; ties keep the
earlier value). -/
def spec_max_severity (severities : List String) : String :=
  severities.foldl (fun a b => if sevRank b ≤ sevRank a then a else b) ("none")

/-! ### Concrete fixtures used by witnesses and counterexamples -/

/-- A regex callback that raises on every use; the fixtures below never reach
a `regex_match` condition. -/
def research_stub : ReSearch :=
  fun _ _ => .error ("regex not modelled")

/-- Demo rule: current month expense above current month income. -/
def rule_overspend_demo : RuleDefinition :=
  { id := ("R-A"), bucket := ("budget"), name := ("demo overspend"), priority := 1,
    condition := .comparison (.str ("current_month_expense")) (">")
      (.str ("current_month_income")),
    severity := .fixed (some ("high")), message_template := ("overspend") }

/-- Demo rule: negative net cashflow. -/
def rule_deficit_demo : RuleDefinition :=
  { id := ("R-B"), bucket := ("budget"), name := ("demo deficit"), priority := 2,
    condition := .comparison (.str ("net_cashflow")) ("<") (.num 0),
    severity := .fixed (some ("medium")), message_template := ("deficit") }

/-- A context lacking all three required base fields. -/
def context_missing_base : Ctx :=
  [(("savings_rate"), .num 1)]

/-- A context binding the metric name to a non-numeric value (drives the
severity cores into their exception paths). -/
def ctx_oops : Ctx :=
  [(("m"), .str ("oops"))]

/-- The bands of specification Example 2. -/
def bands_example : List Band :=
  [{ threshold := some 0.5, severity := ("high") },
   { threshold := some 0.3, severity := ("medium") },
   { threshold := none, severity := ("low") }]

/-- A context resolving the metric name to `0.35`. -/
def ctx_metric : Ctx :=
  [(("m"), .num 0.35)]

/-- The contributors of specification Example 3: weights `1.0` (high) and
`0.5` (medium) on one dimension. -/
def contributors_example : List Contributor :=
  [{ rule_id := ("R-SAVE-LOW-01"), severity := some ("high"), weight := 1 },
   { rule_id := ("R-EMERG-FUND-01"), severity := some ("medium"), weight := 0.5 }]

/-- A per-rule evaluator that raises on every rule. -/
def failing_evalRule : RuleDefinition → Except String RuleTrigger :=
  fun _ => .error ("boom")

/-- A triggered `R-INCOME-DROP-01` trigger. -/
def income_drop_triggered : RuleTrigger :=
  { rule_id := ("R-INCOME-DROP-01"), triggered := true, severity := some ("high") }

/-- A non-triggered `R-INCOME-DROP-01` trigger. -/
def income_drop_not_triggered : RuleTrigger :=
  { rule_id := ("R-INCOME-DROP-01"), triggered := false }

/-- A minimal concrete normalized input. -/
def sample_input : NormalizedInput :=
  { user_id := ("u1"), month := ("2025-01"), avg_monthly_income := 4000,
    avg_monthly_expense := 3500, current_month_income := 4000,
    current_month_expense := 3500, net_cashflow := 500 }

/-! ### Claim theorems -/

/-- Claim C10 (confirmed): for every normalized input, the context built by
`_build_context` contains the keys `persona`, `current_month_income` and
`current_month_expense` (missing input fields are replaced by defaults), so
`_validate_context` succeeds for every input and rule, making the
validation-failure branch of `_evaluate_rule` unreachable for built
contexts. -/
theorem built_context_always_validates (stdev : List ℚ → ℚ) (data : NormalizedInput)
    (rule_def : RuleDefinition) :
    (ctxGet (build_context stdev data) ("persona")).isSome = true ∧
    (ctxGet (build_context stdev data) ("current_month_income")).isSome = true ∧
    (ctxGet (build_context stdev data) ("current_month_expense")).isSome = true ∧
    validate_context (build_context stdev data) rule_def = true :=
  ⟨rfl, rfl, rfl, rfl⟩

/-- Claim C8 (code bug): at current spend `100`, income `1000` and target
ratio `0.25`, `_calculate_smart_cap` returns the current spend itself, so
the recommended reduction (current spend minus cap) is `0`, not strictly
positive — contradicting the function's own docstring ("Ensures target is
ALWAYS below current spend to produce positive savings"). -/
theorem smart_cap_can_equal_current_spend :
    calculate_smart_cap 100 1000 0.25 = 100 ∧
    ¬(0 < 100 - calculate_smart_cap 100 1000 0.25) := by
  have h : calculate_smart_cap 100 1000 0.25 = 100 := by
    simp only [calculate_smart_cap]
    norm_num [max_def, min_def]
  exact ⟨h, by rw [h]; norm_num⟩

/-- Claim C5 (confirmed): for every `eval` callback (however it behaves, and
in particular on catalog-authored arithmetic and bracket expressions), every
expression, context and extracted map, `_resolve_expression` returns `.ok`
of either a value or the `Unresolved` signal (`none`) — no exception escapes
to its caller. -/
theorem expression_resolution_never_raises
    (evalFn : String → Ctx → Except String Value) (expr : Value) (ctx extracted : Ctx) :
    ∃ r : Option Value, resolveExpressionWith evalFn expr ctx extracted = .ok r := by
  cases expr <;> simp only [resolveExpressionWith] <;>
    first
      | exact ⟨_, rfl⟩
      | ((repeat' split) <;> exact ⟨_, rfl⟩)

/-- Claim C4 (confirmed): the severity calculation is total (the embedding
assigns it a plain, non-`Except` result type because every raising operation
sits behind its `try/except`), a `Fixed` specification returns its literal
value, and every internal error in the banded or threshold cores degrades
the result to `"low"`. -/
theorem severity_never_raises_and_degrades_to_low :
    (∀ (v : String) (ctx extracted : Ctx),
        calculate_severity (.fixed (some v)) ctx extracted = v) ∧
    (∀ (metric : Value) (bands : List Band) (ctx extracted : Ctx) (e : String),
        bandedCore metric bands ctx extracted = .error e →
        calculate_severity (.banded metric bands) ctx extracted = "low") ∧
    (∀ (metric : Value) (rules : List ThresholdRule) (ctx extracted : Ctx) (e : String),
        thresholdCore metric rules ctx extracted = .error e →
        calculate_severity (.threshold metric rules) ctx extracted = "low") := by
  refine ⟨fun v ctx ex => rfl, fun metric bands ctx ex e h => ?_,
    fun metric rules ctx ex e h => ?_⟩
  · simp [calculate_severity, h]
  · simp [calculate_severity, h]

/-- Witness for C4: a literal fixed severity is returned unchanged, and a
non-numeric metric (a `TypeError` inside the banded and threshold cores)
degrades both cores to `"low"`. -/
theorem severity_never_raises_witness :
    calculate_severity (.fixed (some ("high"))) [] [] = "high" ∧
    (bandedCore (.str ("m")) [{ threshold := some 1, severity := ("high") }] ctx_oops [] =
        .error ("TypeError: unorderable types") ∧
      calculate_severity (.banded (.str ("m")) [{ threshold := some 1, severity := ("high") }])
        ctx_oops [] = "low") ∧
    (thresholdCore (.str ("m")) [{ condition := ("> 2"), severity := ("high") }] ctx_oops [] =
        .error ("TypeError: unorderable types") ∧
      calculate_severity
        (.threshold (.str ("m")) [{ condition := ("> 2"), severity := ("high") }])
        ctx_oops [] = "low") := by
  refine ⟨severity_never_raises_and_degrades_to_low.1 ("high") [] [], ⟨rfl, ?_⟩, ⟨rfl, ?_⟩⟩
  · exact severity_never_raises_and_degrades_to_low.2.1 _ _ _ _ _ rfl
  · exact severity_never_raises_and_degrades_to_low.2.2 _ _ _ _ _ rfl

/-- The band walk of `_calculate_severity` together with its last-band
fallback computes exactly the specification's band selection whenever the
metric is numeric. -/
theorem banded_walk_and_fallback (v : ℚ) (bands : List Band) :
    (match banded_walk (.num v) bands with
     | .error e => Except.error e
     | .ok (some s) => Except.ok s
     | .ok none =>
         Except.ok (match bands.getLast? with
                    | some b => b.severity
                    | none => "low")) =
      Except.ok (α := String) (spec_banded_select v bands) := by
  induction bands with
  | nil => rfl
  | cons b rest ih =>
      cases hth : b.threshold with
      | none => simp [banded_walk, spec_banded_select, hth]
      | some t =>
          by_cases hv : t ≤ v
          · simp [banded_walk, spec_banded_select, hth, valueGENum, numOfValue,
              ge_iff_le, hv]
          · cases rest with
            | nil =>
                simp [banded_walk, spec_banded_select, hth, valueGENum, numOfValue,
                  ge_iff_le, hv]
            | cons c cs =>
                simpa [banded_walk, spec_banded_select, hth, valueGENum, numOfValue,
                  ge_iff_le, hv] using ih

/-- Claim C7 (confirmed): whenever the metric of a `Banded` severity
specification resolves to a (numeric) value, `_calculate_severity` walks the
bands top-down and returns the severity of the first band whose threshold is
null or at most the metric value, falling back to the last band's severity
and to `"low"` for an empty band list — i.e. exactly
`spec_banded_select`. -/
theorem banded_severity_first_match (metric : Value) (bands : List Band)
    (ctx extracted : Ctx) (v : ℚ)
    (h : resolve_expression metric ctx extracted = some (.num v)) :
    calculate_severity (.banded metric bands) ctx extracted = spec_banded_select v bands := by
  have hcore : bandedCore metric bands ctx extracted = .ok (spec_banded_select v bands) := by
    unfold bandedCore
    rw [h]
    exact banded_walk_and_fallback v bands
  simp [calculate_severity, hcore]

/-- Witness for C7 (specification Example 2): bands
`[\x7b0.5, high\x7d, \x7b0.3, medium\x7d, \x7bnull, low\x7d]` with metric
`0.35` yield `"medium"`. -/
theorem banded_severity_first_match_witness :
    resolve_expression (.str ("m")) ctx_metric [] = some (.num 0.35) ∧
    calculate_severity (.banded (.str ("m")) bands_example) ctx_metric [] = "medium" := by
  refine ⟨rfl, ?_⟩
  have h := banded_severity_first_match (.str ("m")) bands_example ctx_metric [] 0.35 rfl
  rw [h]
  norm_num [spec_banded_select, bands_example]

/-- Helper for C1: a context missing a required base field never validates. -/
theorem validate_context_false_of_missing (context : Ctx) (rule_def : RuleDefinition)
    (h : ∃ f ∈ required_base_fields, (ctxGet context f).isNone = true) :
    validate_context context rule_def = false := by
  obtain ⟨f, hf, hnone⟩ := h
  unfold validate_context
  split
  · rfl
  · rw [List.all_eq_false]
    exact ⟨f, hf, by simp [Option.isNone_iff_eq_none] at hnone; simp [hnone]⟩

/-- Claim C1 (counterexample): on a context lacking all required base fields
(here even `persona` is absent), the catalog-wide evaluation does not fail
with any error — it returns a non-triggered outcome for each of the two
rules and keeps going.  No `InvalidContext` error exists in the code. -/
theorem invalid_context_not_fatal_counterexample :
    (ctxGet context_missing_base ("persona")).isNone = true ∧
    evaluate_allWith (fun r => evaluate_rule_with_context research_stub r context_missing_base)
        [rule_overspend_demo, rule_deficit_demo] =
      [{ rule_id := ("R-A"), triggered := false }, { rule_id := ("R-B"), triggered := false }] :=
  ⟨rfl, rfl⟩

/-- Claim C1 (amended): when a required base field is absent from the
context, each rule's evaluation returns `.ok` of a non-triggered outcome
(never an error) and the loop continues through the whole catalog, producing
one non-triggered trigger per rule; no `InvalidContext` failure is surfaced
to the caller. -/
theorem missing_base_field_yields_nontriggered_and_continues
    (research : ReSearch) (context : Ctx) (rules : List RuleDefinition)
    (h : ∃ f ∈ required_base_fields, (ctxGet context f).isNone = true) :
    evaluate_allWith (fun r => evaluate_rule_with_context research r context) rules =
      rules.map (fun r => { rule_id := r.id, triggered := false }) := by
  have hrule : ∀ rule_def : RuleDefinition,
      evaluate_rule_with_context research rule_def context =
        .ok { rule_id := rule_def.id, triggered := false } := by
    intro rule_def
    unfold evaluate_rule_with_context
    rw [validate_context_false_of_missing context rule_def h]
    rfl
  suffices hloop : ∀ (rs : List RuleDefinition) (s : EvalState),
      (rs.foldl (eval_step (fun r => evaluate_rule_with_context research r context)) s).triggers =
        s.triggers ++ rs.map (fun r => { rule_id := r.id, triggered := false }) by
    have := hloop rules {}
    simpa [evaluate_allWith] using this
  intro rs
  induction rs with
  | nil => intro s; simp
  | cons r rest ih =>
      intro s
      rw [List.foldl_cons, ih]
      simp [eval_step, hrule r]

/-- Witness for the amended C1: the concrete base-field-free context with a
two-rule catalog yields two non-triggered outcomes. -/
theorem missing_base_field_witness :
    (∃ f ∈ required_base_fields, (ctxGet context_missing_base f).isNone = true) ∧
    evaluate_allWith (fun r => evaluate_rule_with_context research_stub r context_missing_base)
        [rule_overspend_demo, rule_deficit_demo] =
      [{ rule_id := ("R-A"), triggered := false }, { rule_id := ("R-B"), triggered := false }] := by
  have hmiss : ∃ f ∈ required_base_fields, (ctxGet context_missing_base f).isNone = true :=
    ⟨("persona"), by simp [required_base_fields], rfl⟩
  refine ⟨hmiss, ?_⟩
  rw [missing_base_field_yields_nontriggered_and_continues research_stub context_missing_base
    [rule_overspend_demo, rule_deficit_demo] hmiss]
  rfl

/-- Claim C3 (confirmed): for every per-rule evaluator and catalog, when the
evaluation of one rule raises, `evaluate_all` does not propagate the
exception: the failing rule contributes exactly the safe non-triggered
outcome (severity `"low"`, `params = \x7berror: message\x7d`, truncated
reason), the loop continues over all subsequent rules from the same
dedup state, and the loop's plain list result type reflects that
`evaluate_all` itself never raises. -/
theorem failing_rule_is_isolated
    (evalRule : RuleDefinition → Except String RuleTrigger)
    (pre post : List RuleDefinition) (rule_def : RuleDefinition) (e : String)
    (h : evalRule rule_def = .error e) :
    evaluate_allWith evalRule (pre ++ rule_def :: post) =
      (List.foldl (eval_step evalRule)
        { List.foldl (eval_step evalRule) {} pre with
          triggers := (List.foldl (eval_step evalRule) {} pre).triggers ++
            [{ rule_id := rule_def.id, triggered := false, severity := some ("low"),
               params := [(("error"), Value.str e)],
               reason := some (("Rule evaluation failed: ") ++ pyTake e 100) }] }
        post).triggers := by
  unfold evaluate_allWith
  rw [List.foldl_append, List.foldl_cons]
  congr 2
  unfold eval_step
  rw [h]
  rfl

/-- Witness for C3: an evaluator raising `"boom"` on both rules of a two-rule
catalog yields the two annotated non-triggered outcomes in order. -/
theorem failing_rule_is_isolated_witness :
    failing_evalRule rule_overspend_demo = .error ("boom") ∧
    evaluate_allWith failing_evalRule [rule_overspend_demo, rule_deficit_demo] =
      [{ rule_id := ("R-A"), triggered := false, severity := some ("low"),
         params := [(("error"), Value.str ("boom"))],
         reason := some ("Rule evaluation failed: boom") },
       { rule_id := ("R-B"), triggered := false, severity := some ("low"),
         params := [(("error"), Value.str ("boom"))],
         reason := some ("Rule evaluation failed: boom") }] := by
  refine ⟨rfl, ?_⟩
  show evaluate_allWith failing_evalRule ([] ++ rule_overspend_demo :: [rule_deficit_demo]) = _
  exact (failing_rule_is_isolated failing_evalRule [] [rule_deficit_demo]
    rule_overspend_demo ("boom") rfl).trans (by rfl)

/-- Number of triggered outcomes carrying a given rule id. -/
def triggered_count (id : String) (triggers : List RuleTrigger) : ℕ :=
  (triggers.filter (fun t => t.triggered && t.rule_id == id)).length

/-- Appending triggers splits the count. -/
theorem triggered_count_append (id : String) (l l2 : List RuleTrigger) :
    triggered_count id (l ++ l2) = triggered_count id l + triggered_count id l2 := by
  simp [triggered_count, List.filter_append]

/-- The error arm of the `evaluate_all` loop body. -/
theorem eval_step_error_eq (evalRule : RuleDefinition → Except String RuleTrigger)
    (s : EvalState) (r : RuleDefinition) (e : String) (h : evalRule r = .error e) :
    eval_step evalRule s r = { s with triggers := s.triggers ++ [error_trigger r e] } := by
  unfold eval_step
  rw [h]

/-- The success arm of the `evaluate_all` loop body. -/
theorem eval_step_ok_eq (evalRule : RuleDefinition → Except String RuleTrigger)
    (s : EvalState) (r : RuleDefinition) (t : RuleTrigger) (h : evalRule r = .ok t) :
    eval_step evalRule s r =
      if t.triggered && s.triggered_ids.contains t.rule_id then s
      else
        { triggers := s.triggers ++ [t],
          triggered_ids :=
            if t.triggered then s.triggered_ids ++ [t.rule_id] else s.triggered_ids } := by
  unfold eval_step
  rw [h]

/-- Helper for C6: the loop of `evaluate_all` preserves the dedup invariant
(at most one triggered outcome per id, and none while the id is outside the
triggered-id set). -/
theorem eval_loop_dedup_invariant
    (evalRule : RuleDefinition → Except String RuleTrigger) (id : String)
    (rules : List RuleDefinition) :
    ∀ s : EvalState,
      triggered_count id s.triggers ≤ 1 →
      (id ∉ s.triggered_ids → triggered_count id s.triggers = 0) →
      triggered_count id (List.foldl (eval_step evalRule) s rules).triggers ≤ 1 := by
  induction rules with
  | nil => intro s h1 _; simpa using h1
  | cons r rest ih =>
      intro s h1 h2
      rw [List.foldl_cons]
      cases hr : evalRule r with
      | error e =>
          rw [eval_step_error_eq evalRule s r e hr]
          refine ih _ ?_ ?_
          · simpa [triggered_count_append, triggered_count, error_trigger] using h1
          · intro hc
            simpa [triggered_count_append, triggered_count, error_trigger] using h2 hc
      | ok t =>
          rw [eval_step_ok_eq evalRule s r t hr]
          cases hsk : (t.triggered && s.triggered_ids.contains t.rule_id) with
          | true => simpa [hsk] using ih s h1 h2
          | false =>
              rw [if_neg (by simp [hsk])]
              cases ht : t.triggered with
              | false =>
                  refine ih _ ?_ ?_
                  · simpa [triggered_count_append, triggered_count, ht] using h1
                  · intro hc
                    simp only [ht] at hc
                    simp only [if_neg Bool.false_ne_true] at hc
                    simpa [triggered_count_append, triggered_count, ht] using h2 hc
              | true =>
                  have hmem : t.rule_id ∉ s.triggered_ids := by
                    rw [ht, Bool.true_and] at hsk
                    simpa using hsk
                  by_cases hid : t.rule_id = id
                  · subst hid
                    have hzero : triggered_count t.rule_id s.triggers = 0 := h2 hmem
                    refine ih _ ?_ ?_
                    · simp [triggered_count_append, triggered_count, ht]
                      simpa [triggered_count] using hzero
                    · intro hc
                      exfalso
                      apply hc
                      simp [ht]
                  · refine ih _ ?_ ?_
                    · simpa [triggered_count_append, triggered_count, ht, hid] using h1
                    · intro hc
                      simp [ht] at hc
                      simpa [triggered_count_append, triggered_count, ht, hid]
                        using h2 hc.1

/-- Claim C6 (confirmed): for every per-rule evaluator, catalog and rule id,
one evaluation pass emits at most one triggered outcome for that id — a
later duplicate triggered outcome is skipped by the dedup set. -/
theorem at_most_one_triggered_outcome_per_id
    (evalRule : RuleDefinition → Except String RuleTrigger)
    (rules : List RuleDefinition) (id : String) :
    triggered_count id (evaluate_allWith evalRule rules) ≤ 1 := by
  unfold evaluate_allWith
  exact eval_loop_dedup_invariant evalRule id rules {} (by simp [triggered_count])
    (fun _ => by simp [triggered_count])

/-- Helper for C2: the `_calculate_weighted_score` loop computes the sums
and running maximum of the specification, for any valid starting
accumulator. -/
theorem cws_fold_spec (l : List Contributor) :
    ∀ (a b : ℚ) (m : String),
      (severity_order_index m).isSome = true →
      (∀ c ∈ l, ∃ s, c.severity = some s ∧ (severity_order_index s).isSome = true) →
      l.foldlM cwsStep (a, b, m) =
        .ok (a + (l.map (fun c => c.weight * contributorMultiplier c.severity)).sum,
             b + (l.map (fun c => c.weight * 3)).sum,
             l.foldl (fun x c =>
               if sevRank (c.severity.getD ("none")) ≤ sevRank x then x
               else c.severity.getD ("none")) m) := by
  induction l with
  | nil =>
      intro a b m _ _
      simp [List.foldlM, pure, Except.pure]
  | cons c rest ih =>
      intro a b m hm hl
      obtain ⟨s, hs, hsv⟩ := hl c (by simp)
      obtain ⟨im, him⟩ := Option.isSome_iff_exists.mp hm
      obtain ⟨isv, his⟩ := Option.isSome_iff_exists.mp hsv
      have hstep : cwsStep (a, b, m) c =
          .ok (a + c.weight * contributorMultiplier c.severity, b + c.weight * 3,
               if sevRank (c.severity.getD ("none")) ≤ sevRank m then m
               else c.severity.getD ("none")) := by
        unfold cwsStep max_severity
        rw [hs]
        simp only [Option.getD_some]
        rw [him, his]
        simp [sevRank, him, his, ge_iff_le]
      rw [List.foldlM_cons, hstep]
      have hnext : (severity_order_index
          (if sevRank (c.severity.getD ("none")) ≤ sevRank m then m
           else c.severity.getD ("none"))).isSome = true := by
        split
        · exact hm
        · rw [hs]
          simp [his]
      have ihx := ih (a + c.weight * contributorMultiplier c.severity) (b + c.weight * 3)
        _ hnext (fun d hd => hl d (by simp [hd]))
      simp only [bind, Except.bind]
      rw [ihx]
      simp [List.sum_cons, add_assoc]

/-- Claim C2 (confirmed): for every nonempty contributor list with valid
severities, `_calculate_weighted_score` returns exactly the specification's
`weighted_score = Σ weight × multiplier` (multipliers `none=0, low=1,
medium=2, high=3`), `max_possible = Σ weight × 3`, and the pointwise maximum
severity under `none < low < medium < high`; and the normalization used by
`build_risks` equals `100 × weighted / max_possible` with `0` when
`max_possible` is `0` (weights are nonnegative, so `max_possible ≥ 0`). -/
theorem weighted_score_matches_spec (contributors : List Contributor)
    (hne : contributors ≠ [])
    (hv : ∀ c ∈ contributors, ∃ s, c.severity = some s ∧
      (severity_order_index s).isSome = true) :
    calculate_weighted_score contributors =
      .ok ((contributors.map (fun c => c.weight * contributorMultiplier c.severity)).sum,
           (contributors.map (fun c => c.weight * 3)).sum,
           spec_max_severity (contributors.map (fun c => c.severity.getD ("none")))) ∧
    (severity_to_multiplier ("none") = 0 ∧ severity_to_multiplier ("low") = 1 ∧
     severity_to_multiplier ("medium") = 2 ∧ severity_to_multiplier ("high") = 3) ∧
    (∀ ws mp : ℚ, 0 ≤ mp →
      normalized_score ws mp = if mp = 0 then 0 else 100 * ws / mp) := by
  refine ⟨?_, ⟨rfl, rfl, rfl, rfl⟩, ?_⟩
  · have hne2 : contributors.isEmpty = false := by
      cases contributors with
      | nil => exact absurd rfl hne
      | cons a l => rfl
    unfold calculate_weighted_score
    rw [hne2]
    simp only [Bool.false_eq_true, if_false]
    rw [cws_fold_spec contributors 0 0 ("none") rfl hv]
    simp [spec_max_severity, List.foldl_map]
  · intro ws mp h
    unfold normalized_score
    rcases h.lt_or_eq with hlt | heq
    · rw [if_pos hlt, if_neg (by positivity)]
      ring
    · rw [← heq]
      simp

/-- Witness for C2 (specification Example 3): contributors of weights `1.0`
(high) and `0.5` (medium) give weighted score `4.0`, max possible `4.5`,
overall severity `"high"`, and normalized score `800/9 ≈ 88.9` (rounding to
one decimal, as `build_risks` reports it, gives exactly `88.9`). -/
theorem weighted_score_matches_spec_witness :
    calculate_weighted_score contributors_example = .ok (4, 4.5, ("high")) ∧
    normalized_score 4 4.5 = 800 / 9 ∧
    roundTo 1 (800 / 9) = 88.9 := by
  refine ⟨?_, ?_, ?_⟩
  · have h := (weighted_score_matches_spec contributors_example
      (by unfold contributors_example; exact List.cons_ne_nil _ _)
      (by
        intro c hc
        simp only [contributors_example, List.mem_cons, List.not_mem_nil, or_false] at hc
        rcases hc with rfl | rfl
        · exact ⟨("high"), rfl, rfl⟩
        · exact ⟨("medium"), rfl, rfl⟩)).1
    rw [h]
    refine congrArg Except.ok ?_
    have h1 : (contributors_example.map
        (fun c => c.weight * contributorMultiplier c.severity)).sum = 4 := by
      show (1 : ℚ) * contributorMultiplier (some ("high")) +
        ((0.5 : ℚ) * contributorMultiplier (some ("medium")) + 0) = 4
      rw [show contributorMultiplier (some ("high")) = 3 from rfl,
        show contributorMultiplier (some ("medium")) = 2 from rfl]
      norm_num
    have h2 : (contributors_example.map (fun c => c.weight * 3)).sum = (4.5 : ℚ) := by
      show (1 : ℚ) * 3 + ((0.5 : ℚ) * 3 + 0) = 4.5
      norm_num
    have h3 : spec_max_severity
        (contributors_example.map (fun c => c.severity.getD ("none"))) = "high" := rfl
    rw [h1, h2, h3]
  · norm_num [normalized_score]
  · unfold roundTo roundHalfEvenInt
    norm_num

/-- A bind raises whenever every continuation raises. -/
theorem isError_bind_cont {α β : Type} (x : Except String α) (f : α → Except String β)
    (h : ∀ a, isError (f a) = true) : isError (x >>= f) = true := by
  cases x with
  | ok a => simpa [bind, Except.bind, isError] using h a
  | error e => rfl

/-- A bind raises whenever its first component raises. -/
theorem isError_bind_left {α β : Type} (x : Except String α) (f : α → Except String β)
    (h : isError x = true) : isError (x >>= f) = true := by
  cases x with
  | ok a => exact absurd h (by simp [isError])
  | error e => rfl

/-- The income-drop branch raises on every triggered `R-INCOME-DROP-01`
outcome: it reads the undeclared attribute `total_essential_expense`. -/
theorem rec_income_drop_raises (data : NormalizedInput) (risks : List RiskItem)
    (recs : List Recommendation) (r : RuleTrigger) (h : r.triggered = true) :
    isError (rec_income_drop data risks (some r) recs) = true := by
  unfold rec_income_drop
  dsimp only
  rw [h]
  simp only [Bool.not_true, Bool.false_eq_true, if_false]
  rw [show pydanticGetAttr data ("total_essential_expense") =
    .error ("AttributeError: total_essential_expense") from rfl]
  rfl

/-- Claim C9 (counterexample): a triggered `R-INCOME-DROP-01` outcome does
appear in this trigger list, yet `build_recommendations` returns a
recommendation list without raising, because the builder's rule index keeps
only the last outcome per rule id and the last `R-INCOME-DROP-01` outcome
here is non-triggered. -/
theorem income_drop_in_list_not_sufficient_counterexample :
    ([income_drop_triggered, income_drop_not_triggered].any
        (fun r => r.rule_id == ("R-INCOME-DROP-01") && r.triggered) = true) ∧
    build_recommendations sample_input []
        [income_drop_triggered, income_drop_not_triggered] = .ok [] :=
  ⟨rfl, rfl⟩

/-- Claim C9 (amended): whenever the builder's rule index resolves
`R-INCOME-DROP-01` to a triggered outcome — in particular whenever the rule
appears triggered in the list with no later duplicate — the whole
`build_recommendations` call raises instead of returning a recommendation
list, because the branch reads `total_essential_expense`, which is not a
declared field of `NormalizedInput`. -/
theorem income_drop_trigger_raises (data : NormalizedInput) (risks : List RiskItem)
    (rules : List RuleTrigger) (r : RuleTrigger)
    (h1 : rule_index rules ("R-INCOME-DROP-01") = some r) (h2 : r.triggered = true) :
    normalizedInputFields.contains ("total_essential_expense") = false ∧
    isError (build_recommendations data risks rules) = true := by
  refine ⟨rfl, ?_⟩
  unfold build_recommendations
  apply isError_bind_cont; intro recs
  apply isError_bind_cont; intro recs
  apply isError_bind_cont; intro recs
  apply isError_bind_cont; intro recs
  apply isError_bind_cont; intro recs
  apply isError_bind_cont; intro recs
  apply isError_bind_cont; intro recs
  apply isError_bind_cont; intro recs
  apply isError_bind_cont; intro recs
  apply isError_bind_left
  rw [h1]
  exact rec_income_drop_raises data risks recs r h2

/-- Witness for the amended C9: a single triggered `R-INCOME-DROP-01`
outcome makes the builder raise. -/
theorem income_drop_trigger_raises_witness :
    rule_index [income_drop_triggered] ("R-INCOME-DROP-01") = some income_drop_triggered ∧
    income_drop_triggered.triggered = true ∧
    isError (build_recommendations sample_input [] [income_drop_triggered]) = true :=
  ⟨rfl, rfl, (income_drop_trigger_raises sample_input [] [income_drop_triggered]
      income_drop_triggered rfl rfl).2⟩

end FinMentor
